import Mathlib

/-!
Verification of the Choco-app spreadsheet report engine against its
specification.  The definitions below are a shallow embedding of
src/backend/src/report/structure_parser.py, excel_generator.py,
async_service.py and api.py; machine strings are Lean strings, Python
dictionaries become structures with optional fields, and the openpyxl
worksheet is modelled as a cell grid with tracked dimensions.
-/

set_option linter.unusedVariables false

/-! ## Python string primitives used by the report code -/

/-- Whitespace characters removed by Python str.strip (the ASCII set). -/
def pyIsSpace (c : Char) : Bool :=
  c = ' ' || c = '\t' || c = '\n' || c = '\x0d' || c = '\x0b' || c = '\x0c'

/-- Python str.strip: drop whitespace from both ends of the string. -/
def pyStrip (s : String) : String :=
  String.mk (((s.toList.dropWhile pyIsSpace).reverse.dropWhile pyIsSpace).reverse)

/-- Python str.upper, character by character. -/
def pyUpper (s : String) : String :=
  String.mk (s.toList.map Char.toUpper)

/-! ## normalize_color (structure_parser.py lines 13-38) -/

/-- The 22 characters accepted as hexadecimal digits by normalize_color. -/
def hexDigits : List Char := "0123456789ABCDEFabcdef".toList

/-- Drop a single leading hash character, as in the startswith branch of
normalize_color. -/
def stripHash (s : String) : String :=
  match s.toList with
  | [] => s
  | c :: cs => if c = '#' then String.mk cs else s

/-- The validity test of normalize_color: exactly 6 characters, all
hexadecimal digits (either case). -/
def isHex6 (s : String) : Bool :=
  s.toList.length == 6 && s.toList.all (fun c => hexDigits.contains c)

/-- normalize_color from structure_parser.py: empty input maps to 000000;
otherwise strip whitespace, drop one leading hash, and if the result is six
hexadecimal digits return it uppercased, else 000000. -/
def normalize_color (color_value : String) : String :=
  if color_value = "" then "000000"
  else
    let color_str := stripHash (pyStrip color_value)
    if isHex6 color_str then pyUpper color_str else "000000"

/-- The normalization rule as claim C3 literally states it: only a leading
hash is stripped before the six-hex-digit test (no whitespace stripping).
Defined from the words of the claim, for comparison with normalize_color. -/
def claimedNormalizeColor (x : String) : String :=
  let t := stripHash x
  if isHex6 t then pyUpper t else "000000"

/-! ## Scalar cell values -/

/-- The scalar values a configuration may put into a cell. -/
inductive Value where
  | s (v : String)
  | i (v : Int)
  | b (v : Bool)
deriving DecidableEq

/-- Python str applied to an optional cell value; an unset cell is the Python
None object, whose string form has four characters. -/
def pyStr : Option Value → String
  | none => "None"
  | some (.s v) => v
  | some (.i n) => toString n
  | some (.b true) => "True"
  | some (.b false) => "False"

/-- openpyxl stores a string cell as a formula (data_type f) when it starts
with an equals sign. -/
def isFormulaValue : Option Value → Bool
  | some (.s v) =>
    match v.toList with
    | c :: _ => c = '='
    | [] => false
  | _ => false

/-! ## Column letters and addresses (openpyxl.utils and CellPosition) -/

/-- openpyxl get_column_letter: bijective base-26 numeration, A=1 .. Z=26,
AA=27 and so on.  Structural recursion on a fuel argument that the wrapper
instantiates large enough (the quotient strictly decreases). -/
def getColumnLetterAux : Nat → Nat → String
  | 0, _ => ""
  | fuel + 1, n =>
    if n ≤ 26 then String.mk [Char.ofNat (64 + n)]
    else getColumnLetterAux fuel ((n - 1) / 26) ++ String.mk [Char.ofNat (65 + (n - 1) % 26)]

def getColumnLetter (n : Nat) : String := getColumnLetterAux n n

/-- openpyxl column_index_from_string, the inverse numeration. -/
def columnIndexFromString (s : String) : Nat :=
  s.toList.foldl (fun acc c => acc * 26 + (c.toNat - 64)) 0

/-- Decimal digits to a number, as Python int() on a digit string. -/
def natOfDigits (l : List Char) : Nat :=
  l.foldl (fun acc c => acc * 10 + (c.toNat - 48)) 0

/-- CellPosition.from_address (structure_parser.py 76-81): the alphabetic
characters of the address give the column, the digit characters the row.
Returns (row, column index). -/
def fromAddress (address : String) : Nat × Nat :=
  (natOfDigits (address.toList.filter Char.isDigit),
   columnIndexFromString (String.mk (address.toList.filter Char.isAlpha)))

/-- Decimal printing of a natural number (Python str on the row index),
by structural fuel recursion. -/
def natReprAux : Nat → Nat → List Char
  | 0, _ => []
  | fuel + 1, n =>
    if n < 10 then [Char.ofNat (48 + n)]
    else natReprAux fuel (n / 10) ++ [Char.ofNat (48 + n % 10)]

def pyNatRepr (n : Nat) : String := String.mk (natReprAux (n + 1) n)

/-- CellPosition.excel_address for a (row, column) pair. -/
def excelAddress (p : Nat × Nat) : String :=
  getColumnLetter p.2 ++ pyNatRepr p.1

/-- CellRange.excel_range for a (start, end) pair of positions. -/
def excelRange (r : (Nat × Nat) × (Nat × Nat)) : String :=
  excelAddress r.1 ++ ":" ++ excelAddress r.2

/-- Split a character list on a separator character, as str.split does. -/
def splitOnChar (sep : Char) : List Char → List (List Char)
  | [] => [[]]
  | c :: cs =>
    if c = sep then [] :: splitOnChar sep cs
    else
      match splitOnChar sep cs with
      | [] => [[c]]
      | h :: t => (c :: h) :: t

/-- A syntactically valid cell address: letters then digits, both nonempty. -/
def isValidAddrChars (l : List Char) : Bool :=
  let letters := l.takeWhile Char.isAlpha
  let rest := l.drop letters.length
  !letters.isEmpty && !rest.isEmpty && rest.all Char.isDigit

def isValidCellAddr (s : String) : Bool := isValidAddrChars s.toList

/-- Models the openpyxl Reference(range_string=...) constructor used by
_add_charts: it accepts a sheet-qualified cell or cell range and raises on
anything else. -/
def referenceOk (rangeStr : String) : Bool :=
  match splitOnChar '!' rangeStr.toList with
  | [_, rng] =>
    match splitOnChar ':' rng with
    | [a] => isValidAddrChars a
    | [a, b] => isValidAddrChars a && isValidAddrChars b
    | _ => false
  | _ => false

/-- _add_charts: a data range without a bang is qualified with the sheet
title. -/
def qualifyRange (title rangeStr : String) : String :=
  if rangeStr.toList.contains '!' then rangeStr else title ++ "!" ++ rangeStr

/-! ## The openpyxl worksheet model

A worksheet is a grid of cells addressed by (row, column), both 1-based,
together with the bookkeeping openpyxl maintains: the dimensions grow to
cover every cell ever touched, and an untouched worksheet still reports one
row and one column (max_row = max_column = 1). Style payloads other than the
solid fill color are condensed into the has_style flag, which is all the
repository code ever reads back. -/

/-- Chart types supported by _add_charts. -/
inductive ChartKind where
  | bar
  | line
  | pie
deriving DecidableEq

/-- A chart object anchored on a worksheet. dataRange is set only when the
Reference construction succeeded; a chart whose data range failed is still
anchored, with no data. -/
structure PyChart where
  kind : ChartKind
  title : String
  x_axis_title : Option String := none
  y_axis_title : Option String := none
  dataRange : Option String := none
  position : String
deriving DecidableEq

/-- One cell of the grid: its value, its solid fill color when one was
applied, the has_style flag, and comment and hyperlink texts. -/
structure PyCell where
  value : Option Value := none
  fill : Option String := none
  styled : Bool := false
  comment : Option String := none
  hyperlink : Option String := none
deriving DecidableEq

/-- The worksheet state.  Numeric widths and heights are modelled as
naturals; Python truthiness on them is the test against zero. -/
structure Worksheet where
  title : String
  cells : Nat × Nat → PyCell
  maxRowRaw : Nat := 0
  maxColRaw : Nat := 0
  merged : List ((Nat × Nat) × (Nat × Nat)) := []
  columnWidths : List (String × Nat) := []
  rowHeights : List (Nat × Nat) := []
  freezePanes : Option String := none
  tabColor : Option String := none
  zoom : Option Nat := none
  charts : List PyChart := []

/-- A fresh worksheet with the given title. -/
def newWs (title : String) : Worksheet :=
  { title := title, cells := fun _ => {} }

/-- openpyxl max_row: at least 1 even on an empty sheet. -/
def wsMaxRow (ws : Worksheet) : Nat := max 1 ws.maxRowRaw

/-- openpyxl max_column: at least 1 even on an empty sheet. -/
def wsMaxCol (ws : Worksheet) : Nat := max 1 ws.maxColRaw

/-- Accessing ws.cell(row, column) creates the cell, extending dimensions. -/
def touchCell (ws : Worksheet) (r c : Nat) : Worksheet :=
  { ws with maxRowRaw := max ws.maxRowRaw r, maxColRaw := max ws.maxColRaw c }

/-- Update one cell of the grid (and extend the dimensions to reach it). -/
def updateCell (ws : Worksheet) (r c : Nat) (f : PyCell → PyCell) : Worksheet :=
  let ws := touchCell ws r c
  { ws with cells := fun p => if p = (r, c) then f (ws.cells p) else ws.cells p }

/-- cell.value assignment. -/
def setValue (ws : Worksheet) (r c : Nat) (v : Value) : Worksheet :=
  updateCell ws r c (fun cell => { cell with value := some v })

/-- cell.fill assignment with a solid PatternFill of the given color. -/
def setFill (ws : Worksheet) (r c : Nat) (color : String) : Worksheet :=
  updateCell ws r c (fun cell => { cell with fill := some color, styled := true })

/-- Assignment of a font, alignment or border object: only the has_style
flag is observable afterwards in the repository code. -/
def setStyledFlag (ws : Worksheet) (r c : Nat) : Worksheet :=
  updateCell ws r c (fun cell => { cell with styled := true })

/-- Python range(a, b + 1) as a list. -/
def rangeList (a b : Nat) : List Nat := List.range' a (b + 1 - a)

/-! ## Report configuration (the JSON schema of section 6) -/

structure FontSpec where
  name : Option String := none
  size : Option Nat := none
  bold : Option Bool := none
  italic : Option Bool := none
  color : Option String := none
deriving DecidableEq

structure FillSpec where
  color : Option String := none
deriving DecidableEq

structure AlignSpec where
  horizontal : Option String := none
  vertical : Option String := none
  wrap_text : Option Bool := none
deriving DecidableEq

structure BorderSpec where
  style : Option String := none
  left : Option Bool := none
  right : Option Bool := none
  top : Option Bool := none
  bottom : Option Bool := none
deriving DecidableEq

structure StyleSpec where
  font : Option FontSpec := none
  fill : Option FillSpec := none
  alignment : Option AlignSpec := none
  border : Option BorderSpec := none
deriving DecidableEq

structure HeaderCfg where
  title : Option String := none
  style : Option StyleSpec := none
  data_style : Option StyleSpec := none
deriving DecidableEq

structure ChartCfg where
  type : Option String := none
  title : Option String := none
  data_range : Option String := none
  position : Option String := none
  x_axis_title : Option String := none
  y_axis_title : Option String := none
deriving DecidableEq

structure AlternatingCfg where
  start_row : Option Nat := none
  end_row : Option Nat := none
  color1 : Option String := none
  color2 : Option String := none
deriving DecidableEq

structure BordersCfg where
  range : Option String := none
  style : Option String := none
deriving DecidableEq

structure FormattingCfg where
  borders : Option BordersCfg := none
  alternating_rows : Option AlternatingCfg := none
  freeze_panes : Option String := none
deriving DecidableEq

structure SheetPropsCfg where
  tab_color : Option String := none
  zoom : Option Nat := none
deriving DecidableEq

structure PropsCfg where
  title : Option String := none
  creator : Option String := none
  description : Option String := none
deriving DecidableEq

structure SheetCfg where
  name : Option String := none
  properties : Option SheetPropsCfg := none
  headers : Option (List HeaderCfg) := none
  data : Option (List (List Value)) := none
  formatting : Option FormattingCfg := none
  charts : Option (List ChartCfg) := none
  auto_adjust_columns : Option Bool := none
deriving DecidableEq

structure ReportConfig where
  sheets : Option (List SheetCfg) := none
  properties : Option PropsCfg := none
deriving DecidableEq

/-! ## ExcelReportGenerator (excel_generator.py) -/

/-- _apply_cell_style: each present style axis is written to the cell; the
fill color is the one observable payload, the others set has_style. -/
def applyCellStyle (ws : Worksheet) (r c : Nat) (style : StyleSpec) : Worksheet :=
  let ws := match style.font with
    | some _ => setStyledFlag ws r c
    | none => ws
  let ws := match style.fill with
    | some f => setFill ws r c (f.color.getD "FFFFFF")
    | none => ws
  let ws := match style.alignment with
    | some _ => setStyledFlag ws r c
    | none => ws
  match style.border with
  | some _ => setStyledFlag ws r c
  | none => ws

/-- _add_headers: header titles go to row 1; a header without a style gets
the default bold-white-on-366092 centered style. -/
def addHeaders (ws : Worksheet) (headers : List HeaderCfg) : Worksheet :=
  (List.enumFrom 1 headers).foldl (fun ws hc =>
    let ws := setValue ws 1 hc.1 (.s (hc.2.title.getD ("Column " ++ toString hc.1)))
    match hc.2.style with
    | some st => applyCellStyle ws 1 hc.1 st
    | none => setFill (setStyledFlag ws 1 hc.1) 1 hc.1 "366092") ws

/-- _add_data: data rows start at row 2 when headers exist, else row 1; a
cell in a column whose header has a data_style receives that style.  The
Python guard headers and col_idx less-or-equal len(headers) is exactly a
successful list lookup at col_idx - 1. -/
def addData (ws : Worksheet) (data : List (List Value)) (headers : List HeaderCfg) :
    Worksheet :=
  let start_row := if headers.isEmpty then 1 else 2
  (List.enumFrom start_row data).foldl (fun ws rd =>
    (List.enumFrom 1 rd.2).foldl (fun ws cv =>
      let ws := setValue ws rd.1 cv.1 cv.2
      match headers.get? (cv.1 - 1) with
      | some hcfg =>
        match hcfg.data_style with
        | some st => applyCellStyle ws rd.1 cv.1 st
        | none => ws
      | none => ws) ws) ws

/-- Parse an A1:C3 style range; openpyxl raises on any other shape, which
aborts the whole render. -/
def parseRangeString (s : String) : Except String ((Nat × Nat) × (Nat × Nat)) :=
  match splitOnChar ':' s.toList with
  | [a] =>
    if isValidAddrChars a then .ok (fromAddress (String.mk a), fromAddress (String.mk a))
    else .error ("Error creating Excel report: invalid range " ++ s)
  | [a, b] =>
    if isValidAddrChars a && isValidAddrChars b then
      .ok (fromAddress (String.mk a), fromAddress (String.mk b))
    else .error ("Error creating Excel report: invalid range " ++ s)
  | _ => .error ("Error creating Excel report: invalid range " ++ s)

/-- _apply_borders: every cell of the configured rectangle receives a border
object, observable as the has_style flag. -/
def applyBorders (ws : Worksheet) (bc : BordersCfg) : Except String Worksheet :=
  match bc.range with
  | none => .ok ws
  | some rangeStr => do
    let rng ← parseRangeString rangeStr
    .ok ((rangeList rng.1.1 rng.2.1).foldl (fun ws r =>
      (rangeList rng.1.2 rng.2.2).foldl (fun ws c => setStyledFlag ws r c) ws) ws)

/-- The inner loop of _apply_alternating_rows: one row gets the fill across
columns 1 to the current max_column. -/
def fillRow (ws : Worksheet) (r : Nat) (color : String) : Worksheet :=
  (rangeList 1 (wsMaxCol ws)).foldl (fun ws c => setFill ws r c color) ws

/-- _apply_alternating_rows (excel_generator.py 230-244): rows start_row to
end_row get a solid fill across columns 1 to max_column, color1 on even row
indices and color2 on odd ones. -/
def applyAlternatingRows (ws : Worksheet) (config : AlternatingCfg) : Worksheet :=
  let start_row := config.start_row.getD 2
  let end_row := config.end_row.getD (wsMaxRow ws)
  let color1 := config.color1.getD "FFFFFF"
  let color2 := config.color2.getD "F2F2F2"
  (rangeList start_row end_row).foldl (fun ws r =>
    fillRow ws r (if r % 2 = 0 then color1 else color2)) ws

/-- _apply_formatting: borders, then alternating rows, then freeze panes. -/
def applyFormatting (ws : Worksheet) (formatting : FormattingCfg) :
    Except String Worksheet := do
  let ws ← match formatting.borders with
    | some bc => applyBorders ws bc
    | none => .ok ws
  let ws := match formatting.alternating_rows with
    | some ac => applyAlternatingRows ws ac
    | none => ws
  match formatting.freeze_panes with
  | some fp => .ok { ws with freezePanes := some fp }
  | none => .ok ws

/-- The dispatch at the top of the chart loop. -/
def chartKindOf (t : String) : Option ChartKind :=
  if t = "bar" then some .bar
  else if t = "line" then some .line
  else if t = "pie" then some .pie
  else none

/-- _add_charts (excel_generator.py 246-287).  An unrecognized type hits
continue: no chart object, no warning.  A failing data range is caught: the
warning line is printed and the chart is still anchored, without data.
Returns the worksheet and the printed warning lines. -/
def addChartStep (acc : Worksheet × List String) (chart_config : ChartCfg) :
    Worksheet × List String :=
  let chart_type := chart_config.type.getD "bar"
  match chartKindOf chart_type with
  | none => acc
  | some kind =>
    let title := chart_config.title.getD "Chart"
    let xT := if kind = ChartKind.pie then none
      else match chart_config.x_axis_title with
        | some t => if t = "" then none else some t
        | none => none
    let yT := if kind = ChartKind.pie then none
      else match chart_config.y_axis_title with
        | some t => if t = "" then none else some t
        | none => none
    let dataAndWarn : Option String × List String :=
      match chart_config.data_range with
      | none => (none, [])
      | some dr0 =>
        if dr0 = "" then (none, [])
        else
          let dr := qualifyRange acc.1.title dr0
          if referenceOk dr then (some dr, [])
          else (none, ["Warning: Could not add chart data range " ++ dr])
    let position := chart_config.position.getD "E2"
    ({ acc.1 with charts := acc.1.charts ++
        [{ kind := kind, title := title, x_axis_title := xT, y_axis_title := yT,
           dataRange := dataAndWarn.1, position := position }] },
     acc.2 ++ dataAndWarn.2)

def addCharts (ws : Worksheet) (charts_config : List ChartCfg) :
    Worksheet × List String :=
  charts_config.foldl addChartStep (ws, [])

/-- _apply_sheet_properties. -/
def applySheetProperties (ws : Worksheet) (p : SheetPropsCfg) : Worksheet :=
  let ws := match p.tab_color with
    | some tc => { ws with tabColor := some tc }
    | none => ws
  match p.zoom with
  | some z => { ws with zoom := some z }
  | none => ws

/-- Dictionary lookup in an insertion-ordered association list. -/
def assocLookup {α : Type} [DecidableEq α] (l : List (α × Nat)) (k : α) : Option Nat :=
  (l.find? (fun p => p.1 = k)).map (fun p => p.2)

/-- Insert-or-overwrite for the dimension dictionaries, preserving insertion
order as a Python dict does. -/
def assocSet {α : Type} [DecidableEq α] (l : List (α × Nat)) (k : α) (v : Nat) :
    List (α × Nat) :=
  if l.any (fun p => p.1 = k) then l.map (fun p => if p.1 = k then (k, v) else p)
  else l ++ [(k, v)]

/-- column_dimensions width assignment. -/
def setColumnWidth (ws : Worksheet) (k : String) (v : Nat) : Worksheet :=
  { ws with columnWidths := assocSet ws.columnWidths k v }

/-- Maximum displayed length in column c: every cell of the used rectangle
is inspected, an empty cell reading as the four-character string None. -/
def colMaxLen (ws : Worksheet) (c : Nat) : Nat :=
  ((rangeList 1 (wsMaxRow ws)).map
    (fun r => (pyStr ((ws.cells (r, c)).value)).length)).foldl max 0

/-- One column of _auto_adjust_columns: the width of its letter becomes
min(max_length + 2, 50). -/
def adjustColumnStep (ws : Worksheet) (c : Nat) : Worksheet :=
  setColumnWidth ws (getColumnLetter c) (min (colMaxLen ws c + 2) 50)

/-- _auto_adjust_columns (excel_generator.py 289-305): every column of the
used range gets its width from its content. -/
def autoAdjustColumns (ws : Worksheet) : Worksheet :=
  (rangeList 1 (wsMaxCol ws)).foldl adjustColumnStep ws

/-- _create_sheet body after the worksheet object exists: properties,
headers, data, formatting, charts, auto width, in that order. -/
def buildSheet (ws0 : Worksheet) (sheet_config : SheetCfg) :
    Except String (Worksheet × List String) := do
  let ws := match sheet_config.properties with
    | some p => applySheetProperties ws0 p
    | none => ws0
  let ws := match sheet_config.headers with
    | some hs => addHeaders ws hs
    | none => ws
  let ws := match sheet_config.data with
    | some d => addData ws d (sheet_config.headers.getD [])
    | none => ws
  let ws ← match sheet_config.formatting with
    | some f => applyFormatting ws f
    | none => .ok ws
  let wsw := match sheet_config.charts with
    | some cs => addCharts ws cs
    | none => (ws, [])
  let ws := if sheet_config.auto_adjust_columns.getD true then autoAdjustColumns wsw.1
    else wsw.1
  .ok (ws, wsw.2)

/-- The generator state while create_report walks the sheet list: the
workbook sheet list, the keys of the worksheets dictionary in insertion
order, and the printed warning lines. -/
structure GenState where
  sheets : List Worksheet
  worksheets : List String
  printed : List String

/-- Python dict key insertion: an existing key keeps its slot. -/
def addKey (l : List String) (k : String) : List String :=
  if l.contains k then l else l ++ [k]

/-- _create_sheet (excel_generator.py 63-100): the first sheet reuses the
still-present active default sheet, retitled; every later sheet is
appended. -/
def createSheetStep (st : GenState) (sheet_config : SheetCfg) : Except String GenState := do
  let sheet_name := sheet_config.name.getD ("Sheet" ++ toString (st.worksheets.length + 1))
  match st.worksheets.isEmpty, st.sheets with
  | true, active :: restSheets =>
    let ws ← buildSheet { active with title := sheet_name } sheet_config
    .ok { sheets := ws.1 :: restSheets, worksheets := addKey st.worksheets sheet_name,
          printed := st.printed ++ ws.2 }
  | _, _ =>
    let ws ← buildSheet (newWs sheet_name) sheet_config
    .ok { sheets := st.sheets ++ [ws.1], worksheets := addKey st.worksheets sheet_name,
          printed := st.printed ++ ws.2 }

/-- Workbook document properties. -/
structure WbProps where
  title : Option String := none
  creator : Option String := none
  description : Option String := none
  subject : Option String := none
  keywords : Option String := none
deriving DecidableEq

/-- The workbook: its sheet list, in tab order, and its properties. -/
structure PyWorkbook where
  sheets : List Worksheet
  props : WbProps

/-- _apply_workbook_properties. -/
def applyWorkbookProperties (wbp : WbProps) (p : PropsCfg) : WbProps :=
  let wbp := match p.title with
    | some t => { wbp with title := some t }
    | none => wbp
  let wbp := match p.creator with
    | some t => { wbp with creator := some t }
    | none => wbp
  match p.description with
  | some t => { wbp with description := some t }
  | none => wbp

/-- create_report (excel_generator.py 21-61).  Saving the file and creating
directories are outside the model.  The result pairs the configuration
dictionary as the caller sees it afterwards (the sheets key is assigned in
place when absent or empty) with the generation outcome: the workbook and
the printed warning lines, or the message of an aborted render. -/
def createReport (config : ReportConfig) :
    ReportConfig × Except String (PyWorkbook × List String) :=
  let step : ReportConfig × List Worksheet :=
    match config.sheets with
    | none => ({ config with sheets := some [{ name := some "Sheet1" }] }, [newWs "Sheet"])
    | some [] => ({ config with sheets := some [{ name := some "Sheet1" }] }, [newWs "Sheet"])
    | some _ => (config, [])
  let config := step.1
  (config,
    match (config.sheets.getD []).foldlM createSheetStep
        { sheets := step.2, worksheets := [], printed := [] } with
    | .error e => .error e
    | .ok st =>
      let props := match config.properties with
        | some p => applyWorkbookProperties {} p
        | none => ({} : WbProps)
      .ok ({ sheets := st.sheets, props := props }, st.printed))

/-! ## The structural model (structure_parser.py dataclasses) -/

/-- CellType (structure_parser.py 41-48). -/
inductive CellType where
  | header
  | data
  | formula
  | merge
  | chart
  | empty
deriving DecidableEq

/-- CellStyle as a value: each axis is an optional attribute dictionary. -/
structure SCellStyle where
  font : Option (List (String × String)) := none
  fill : Option (List (String × String)) := none
  border : Option (List (String × String)) := none
  alignment : Option (List (String × String)) := none
  number_format : Option String := none
deriving DecidableEq

/-- CellDefinition (structure_parser.py 177-188); position is (row, column),
the merge range a pair of corner positions. -/
structure SCellDef where
  position : Nat × Nat
  cell_type : CellType
  value : Option Value := none
  style : Option SCellStyle := none
  formula : Option String := none
  merge_range : Option ((Nat × Nat) × (Nat × Nat)) := none
  comment : Option String := none
  hyperlink : Option String := none
deriving DecidableEq

/-- SheetStructure (structure_parser.py 191-201), restricted to the fields
the claims speak about. -/
structure SSheet where
  name : String
  cells : List SCellDef
  column_widths : Option (List (String × Nat)) := none
  row_heights : Option (List (Nat × Nat)) := none
  freeze_panes : Option String := none
deriving DecidableEq

/-- WorkbookStructure (structure_parser.py 204-210). -/
structure SWorkbook where
  sheets : List SSheet
  properties : Option WbProps := none
deriving DecidableEq

/-- Attribute dictionary lookup. -/
def dictGet (d : List (String × String)) (k : String) : Option String :=
  (d.find? (fun p => p.1 = k)).map (fun p => p.2)

/-- Membership of a position in a merge range rectangle. -/
def inMergeRange (p : Nat × Nat) (mr : (Nat × Nat) × (Nat × Nat)) : Bool :=
  mr.1.1 ≤ p.1 && p.1 ≤ mr.2.1 && mr.1.2 ≤ p.2 && p.2 ≤ mr.2.2

/-! ## create_workbook_from_structure (structure_parser.py 585-676) -/

/-- The style application block of the cell loop (633-643): each present
axis is written through its to_openpyxl converter; the fill color is the
observable payload, every axis sets has_style. -/
def styleTransform (st : SCellStyle) (cell : PyCell) : PyCell :=
  let cell := match st.font with
    | some _ => { cell with styled := true }
    | none => cell
  let cell := match st.fill with
    | some fl =>
      { cell with
        fill := some (normalize_color ((dictGet fl "color").getD "FFFFFF")),
        styled := true }
    | none => cell
  let cell := match st.border with
    | some _ => { cell with styled := true }
    | none => cell
  let cell := match st.alignment with
    | some _ => { cell with styled := true }
    | none => cell
  match st.number_format with
  | some _ => { cell with styled := true }
  | none => cell

/-- The in-place mutations of the one cell object fetched per
CellDefinition (lines 621-652): worksheet.cell(row, column, value) sets the
value only when it is not None; a truthy formula overwrites the value; a
present style is applied; comment and hyperlink are attached when truthy. -/
def cellDefTransform (cd : SCellDef) (cell : PyCell) : PyCell :=
  let cell := match cd.value with
    | some v => { cell with value := some v }
    | none => cell
  let cell := match cd.formula with
    | some f => if f = "" then cell else { cell with value := some (.s f) }
    | none => cell
  let cell := match cd.style with
    | some st => styleTransform st cell
    | none => cell
  let cell := match cd.comment with
    | some t => if t = "" then cell else { cell with comment := some t }
    | none => cell
  match cd.hyperlink with
  | some t => if t = "" then cell else { cell with hyperlink := some t }
  | none => cell

def applyCellDef (ws : Worksheet) (cd : SCellDef) : Worksheet :=
  updateCell ws cd.position.1 cd.position.2 (cellDefTransform cd)

/-- worksheet.merge_cells: the range is recorded, its grid cells are
materialized (extending the dimensions to its far corner) and every cell of
the rectangle except the top-left anchor loses its independent value. -/
def mergeCells (ws : Worksheet) (mr : (Nat × Nat) × (Nat × Nat)) : Worksheet :=
  let ws := touchCell (touchCell ws mr.1.1 mr.1.2) mr.2.1 mr.2.2
  { ws with
    merged := ws.merged ++ [mr],
    cells := fun p =>
      if inMergeRange p mr && p != mr.1 then { ws.cells p with value := none }
      else ws.cells p }

/-- One iteration of the merge loop of create_workbook_from_structure
(655-659), carrying the set of already-merged excel_range strings. -/
def mergeStep (acc : Worksheet × List String) (cd : SCellDef) : Worksheet × List String :=
  match cd.merge_range with
  | some mr =>
    if acc.2.contains (excelRange mr) then acc
    else (mergeCells acc.1 mr, acc.2 ++ [excelRange mr])
  | none => acc

/-- The merge loop of create_workbook_from_structure (655-659), with its
guard against merging the same excel_range string twice. -/
def applyMerges (ws : Worksheet) (cells : List SCellDef) : Worksheet :=
  (cells.foldl mergeStep (ws, ([] : List String))).1

/-- row_dimensions height assignment. -/
def setRowHeight (ws : Worksheet) (k v : Nat) : Worksheet :=
  { ws with rowHeights := assocSet ws.rowHeights k v }

/-- The column-widths loop (662-664): truthiness of the Python dict means
an absent dictionary applies nothing. -/
def applyStructWidths (ws : Worksheet) (o : Option (List (String × Nat))) : Worksheet :=
  match o with
  | some l => l.foldl (fun ws kv => setColumnWidth ws kv.1 kv.2) ws
  | none => ws

/-- The row-heights loop (666-669). -/
def applyStructHeights (ws : Worksheet) (o : Option (List (Nat × Nat))) : Worksheet :=
  match o with
  | some l => l.foldl (fun ws kv => setRowHeight ws kv.1 kv.2) ws
  | none => ws

/-- The freeze-panes assignment (671-673), guarded by Python truthiness. -/
def applyStructFreeze (ws : Worksheet) (o : Option String) : Worksheet :=
  match o with
  | some fp => if fp = "" then ws else { ws with freezePanes := some fp }
  | none => ws

/-- Build one worksheet from a SheetStructure: cells, then merges, then
column widths, row heights and truthy freeze panes. -/
def buildStructSheet (sh : SSheet) : Worksheet :=
  applyStructFreeze
    (applyStructHeights
      (applyStructWidths
        (applyMerges (sh.cells.foldl applyCellDef (newWs sh.name)) sh.cells)
        sh.column_widths)
      sh.row_heights)
    sh.freeze_panes

/-- create_workbook_from_structure: the default sheet is removed, the
title, creator and description properties are copied when present, and
every SheetStructure becomes a fresh worksheet appended in order. -/
def createWorkbookFromStructure (s : SWorkbook) : PyWorkbook :=
  { sheets := s.sheets.map buildStructSheet,
    props := match s.properties with
      | some p => { title := p.title, creator := p.creator, description := p.description }
      | none => {} }

/-! ## parse_from_file (structure_parser.py 296-399) -/

/-- _extract_cell_style, reduced to what the claims observe: a cell without
has_style yields no style object; a styled cell yields a style record whose
fill dictionary carries the fill color when one was applied.  The font,
border and alignment payloads the source also copies are inspected by no
claim and are reported as absent. -/
def extractCellStyle (cell : PyCell) : Option SCellStyle :=
  if cell.styled then some { fill := cell.fill.map (fun c => [("color", c)]) }
  else none

/-- One parsed cell (lines 317-361), as constructed on the paths that
construct one: the type is formula when the stored form is a formula, else
header on row 1, else data; the value is the stored cell value (the
displayed_value attribute does not exist on openpyxl cells, so that branch
is dead); merge_range stays none, because a coordinate inside a recorded
merged range makes the loop at 333-340 read merged_range.min_cell and raise
AttributeError (see parseWorksheetE) before this record is built. -/
def parseCellAt (ws : Worksheet) (r c : Nat) : SCellDef :=
  let cell := ws.cells (r, c)
  { position := (r, c),
    cell_type :=
      if isFormulaValue cell.value then CellType.formula
      else if r = 1 then CellType.header
      else CellType.data,
    value := cell.value,
    style := extractCellStyle cell,
    formula :=
      if isFormulaValue cell.value then
        match cell.value with
        | some (.s v) => some v
        | _ => none
      else none,
    merge_range := none,
    comment := cell.comment,
    hyperlink := cell.hyperlink }

/-- parse_from_file over one worksheet (312-383): walk the used rectangle
row-major, keep cells with a value or a style, collect the truthy column
widths and row heights, and a freeze panes of A1 reads back as none. -/
def parseWorksheet (ws : Worksheet) : SSheet :=
  let cells := (rangeList 1 (wsMaxRow ws)).flatMap (fun r =>
    (rangeList 1 (wsMaxCol ws)).filterMap (fun c =>
      let cell := ws.cells (r, c)
      if cell.value.isSome || cell.styled then some (parseCellAt ws r c) else none))
  let column_widths := ws.columnWidths.filter (fun p => p.2 != 0)
  let row_heights := ws.rowHeights.filter (fun p => p.2 != 0)
  { name := ws.title,
    cells := cells,
    column_widths := if column_widths.isEmpty then none else some column_widths,
    row_heights := if row_heights.isEmpty then none else some row_heights,
    freeze_panes := if ws.freezePanes = some "A1" then none else ws.freezePanes }

/-- parse_from_file over the workbook: iterate sheetnames and fetch each
worksheet by name as workbook[sheet_name] does, then collect the document
properties. -/
def parseWorkbook (wb : PyWorkbook) : SWorkbook :=
  { sheets := (wb.sheets.map Worksheet.title).map (fun nm =>
      parseWorksheet ((wb.sheets.find? (fun ws => ws.title = nm)).getD (newWs nm))),
    properties := some wb.props }

/-- The exception raised by the merged-cell branch of parse_from_file:
openpyxl CellRange and MergedCellRange objects define min_row, min_col,
max_row, max_col and start_cell, but no min_cell or max_cell, so line 336
of structure_parser.py raises the moment it runs. -/
def mergeAttributeError : String :=
  "AttributeError: MergedCellRange object has no attribute min_cell"

/-- Whether the cell loop of parse_from_file reaches the merged-range
branch: some emitted cell of the used rectangle (a value or a style) has
its coordinate inside a recorded merged range (lines 333-335). -/
def parseHitsMerge (ws : Worksheet) : Bool :=
  (rangeList 1 (wsMaxRow ws)).any (fun r =>
    (rangeList 1 (wsMaxCol ws)).any (fun c =>
      let cell := ws.cells (r, c)
      (cell.value.isSome || cell.styled) &&
        ws.merged.any (fun mr => inMergeRange (r, c) mr)))

/-- parse_from_file over one worksheet, with its error path: as soon as the
loop meets an emitted cell lying inside a merged range it evaluates
merged_range.min_cell and raises AttributeError; otherwise the merge branch
never runs and the result is exactly parseWorksheet. -/
def parseWorksheetE (ws : Worksheet) : Except String SSheet :=
  if parseHitsMerge ws then .error mergeAttributeError
  else .ok (parseWorksheet ws)

/-- The sheet loop of parse_from_file: sheets are visited in sheetname
order and the first raise aborts the whole call with nothing returned. -/
def parseSheetsE (wb : PyWorkbook) : List String → Except String (List SSheet)
  | [] => .ok []
  | nm :: rest =>
    match parseWorksheetE ((wb.sheets.find? (fun ws => ws.title = nm)).getD (newWs nm)) with
    | .error e => .error e
    | .ok sh =>
      match parseSheetsE wb rest with
      | .error e => .error e
      | .ok shs => .ok (sh :: shs)

/-- parse_from_file over the workbook, with the merge-branch raise
propagating out of the call. -/
def parseWorkbookE (wb : PyWorkbook) : Except String SWorkbook :=
  match parseSheetsE wb (wb.sheets.map Worksheet.title) with
  | .error e => .error e
  | .ok shs => .ok { sheets := shs, properties := some wb.props }

/-- Render a structure to a file and reverse-parse it; the byte-level save
and load are modelled as the identity on the workbook state. -/
def roundTripE (s : SWorkbook) : Except String SWorkbook :=
  parseWorkbookE (createWorkbookFromStructure s)

/-- Two merge rectangles occupy no common cell. -/
def rectDisjoint (mr mr2 : (Nat × Nat) × (Nat × Nat)) : Prop :=
  mr.2.1 < mr2.1.1 ∨ mr2.2.1 < mr.1.1 ∨ mr.2.2 < mr2.1.2 ∨ mr2.2.2 < mr.1.2

/-- The documented well-formedness invariants of a SheetStructure, under
which the round trip reproduces its facts: cells occupy distinct positive
positions and carry no formula text; a declared merge range is declared by
its own top-left anchor cell, which carries a value, and the rectangle is
nondegenerate; two declared merge ranges are equal or disjoint; a valued
cell lying inside any declared merge range is the anchor of that range;
column widths and row heights have distinct keys and nonzero (truthy)
sizes; the freeze pane is neither the degenerate A1 nor empty. -/
def SheetOK (sh : SSheet) : Prop :=
  (List.Pairwise (fun a b => a.position ≠ b.position) sh.cells) ∧
  (∀ cd ∈ sh.cells, 1 ≤ cd.position.1 ∧ 1 ≤ cd.position.2 ∧ cd.formula = none) ∧
  (∀ cd ∈ sh.cells,
    match cd.merge_range with
    | some mr => cd.position = mr.1 ∧ cd.value.isSome = true ∧
        mr.1.1 ≤ mr.2.1 ∧ mr.1.2 ≤ mr.2.2
    | none => True) ∧
  (∀ cd ∈ sh.cells, ∀ cd2 ∈ sh.cells,
    match cd.merge_range, cd2.merge_range with
    | some mr, some mr2 => mr = mr2 ∨ rectDisjoint mr mr2
    | _, _ => True) ∧
  (∀ cd ∈ sh.cells, cd.value.isSome = true →
    ∀ cd2 ∈ sh.cells,
      match cd2.merge_range with
      | some mr2 => inMergeRange cd.position mr2 = true → cd.position = mr2.1
      | none => True) ∧
  (match sh.column_widths with
   | some lw => (List.Pairwise (fun a b => a.1 ≠ b.1) lw) ∧ ∀ kv ∈ lw, kv.2 ≠ 0
   | none => True) ∧
  (match sh.row_heights with
   | some lh => (List.Pairwise (fun a b => a.1 ≠ b.1) lh) ∧ ∀ kv ∈ lh, kv.2 ≠ 0
   | none => True) ∧
  (sh.freeze_panes ≠ some "A1" ∧ sh.freeze_panes ≠ some "")

/-! ## AsyncReportService (async_service.py) -/

/-- JobStatus (async_service.py 10-14). -/
inductive JobStatus where
  | pending
  | processing
  | completed
  | failed
deriving DecidableEq

/-- The mutable fields of a ReportJob the claims observe. -/
structure JobState where
  status : JobStatus := .pending
  progress : Nat := 0
  error_message : Option String := none
  file_path : Option String := none
  warnings : List String := []
deriving DecidableEq

/-- async_service.py line 100 calls generator.get_warnings(); the class
ExcelReportGenerator in excel_generator.py defines no method of that name,
so the call raises AttributeError. -/
def getWarningsResult : Except String (List String) :=
  .error "AttributeError: ExcelReportGenerator object has no attribute get_warnings"

/-- _process_report_job (async_service.py 74-114) as the sequence of job
snapshots after each status or progress mutation, parameterized by the
outcome of generator.create_report.  The completed branch is reachable only
if the get_warnings call returns. -/
def processReportJobTrace (genRes : Except String String) : List JobState :=
  let s0 : JobState := {}
  let s1 := { s0 with status := JobStatus.processing }
  let s2 := { s1 with progress := 10 }
  let s3 := { s2 with progress := 30 }
  let s4 := { s3 with progress := 50 }
  match genRes with
  | .error e => [s0, s1, s2, s3, s4,
      { s4 with status := JobStatus.failed, error_message := some e }]
  | .ok path =>
    match getWarningsResult with
    | .error e => [s0, s1, s2, s3, s4,
        { s4 with status := JobStatus.failed, error_message := some e }]
    | .ok warns =>
      let s5 := { s4 with warnings := warns }
      let s6 := { s5 with progress := 90 }
      let s7 := { s6 with status := JobStatus.completed }
      let s8 := { s7 with file_path := some path }
      let s9 := { s8 with progress := 100 }
      [s0, s1, s2, s3, s4, s5, s6, s7, s8, s9]

/-- The create_report outcome handed to the job for a configuration: the
output path on success, the message on an aborted render. -/
def generatorOutcome (config : ReportConfig) (filename : String) : Except String String :=
  match (createReport config).2 with
  | .ok _ => .ok ("reports/" ++ filename)
  | .error e => .error e

/-- The job state after _process_report_job finishes. -/
def finalJobState (config : ReportConfig) (filename : String) : Option JobState :=
  (processReportJobTrace (generatorOutcome config filename)).getLast?

/-- An adjacent step the claimed lifecycle admits: status unchanged, or
pending to processing, or processing to a terminal state, with progress
never decreasing. -/
def statusStepOk (a b : JobStatus) : Prop :=
  a = b ∨ (a = .pending ∧ b = .processing) ∨
    (a = .processing ∧ (b = .completed ∨ b = .failed))

def jobStepOk (a b : JobState) : Prop :=
  a.progress ≤ b.progress ∧ statusStepOk a.status b.status

/-! ## validate_config (api.py 179-240) -/

/-- Per-chart validation errors (api.py 209-215); the quote characters of
the Python messages are elided. -/
def chartErrors (sheet_name : String) (j : Nat) (chart : ChartCfg) : List String :=
  (if chart.data_range.isNone then
    ["Chart " ++ toString (j + 1) ++ " in sheet " ++ sheet_name ++ " missing data_range"]
   else []) ++
  (let t := chart.type.getD "bar"
   if t = "bar" ∨ t = "line" ∨ t = "pie" then []
   else ["Invalid chart type " ++ t ++ " in sheet " ++ sheet_name])

def chartListErrors (sheet_name : String) : Nat → List ChartCfg → List String
  | _, [] => []
  | j, c :: cs => chartErrors sheet_name j c ++ chartListErrors sheet_name (j + 1) cs

/-- Per-sheet validation errors: only charts contribute errors; a sheet
without data and headers contributes a warning, kept in a separate list by
the source. -/
def sheetErrors (i : Nat) (sheet : SheetCfg) : List String :=
  let sheet_name := sheet.name.getD ("Sheet " ++ toString (i + 1))
  match sheet.charts with
  | some cs => chartListErrors sheet_name 0 cs
  | none => []

def sheetListErrors : Nat → List SheetCfg → List String
  | _, [] => []
  | i, s :: ss => sheetErrors i s ++ sheetListErrors (i + 1) ss

/-- The error list collected by validate_config (api.py 190-216). -/
def validateConfigErrors (config : ReportConfig) : List String :=
  match config.sheets with
  | none => ["At least one sheet configuration is required"]
  | some [] => ["At least one sheet configuration is required"]
  | some ss => sheetListErrors 0 ss

/-! ## Concrete scenario inputs -/

/-- C1 scenario: one sheet with data and two bar charts, the first with an
unresolvable data range, the second valid. -/
def chartResilienceConfig : ReportConfig :=
  { sheets := some [{ name := some "S",
                      data := some [[.s "A", .i 1], [.s "B", .i 2]],
                      charts := some [
                        { type := some "bar", title := some "Bad",
                          data_range := some "INVALID", position := some "E2" },
                        { type := some "bar", title := some "Good",
                          data_range := some "A1:B2", position := some "E20" }] }] }

/-- C6 counterexample input: two ragged data rows, no headers; column B has
one populated cell of length 2, but row 1 of column B is an empty cell whose
Python string form None has length 4. -/
def sparseColumnConfig : ReportConfig :=
  { sheets := some [{ name := some "S",
                      data := some [[.s "abcde"], [.s "x", .s "yy"]] }] }

/-- The column width rule as claim C6 states it: the maximum is taken over
the populated cells of the column only.  Defined from the words of the
claim, for comparison with colMaxLen. -/
def claimedColWidth (ws : Worksheet) (c : Nat) : Nat :=
  min ((((rangeList 1 (wsMaxRow ws)).filterMap
      (fun r => ((ws.cells (r, c)).value).map (fun v => (pyStr (some v)).length))).foldl
    max 0) + 2) 50

/-- C2 counterexample input: one sheet, one valued cell, freeze panes A1. -/
def freezeA1Structure : SWorkbook :=
  { sheets := [{ name := "Data",
                 cells := [{ position := (1, 1), cell_type := CellType.data,
                             value := some (.s "x") }],
                 freeze_panes := some "A1" }] }

/-- The documented C2 scenario: two sheets, the first with 3 header
columns and 5 data rows (15 data values), one merge range, and a freeze
pane at "B2".  Its merge range is what makes the reverse parse raise. -/
def roundTripScenario : SWorkbook :=
  { sheets := [
      { name := "Summary",
        cells := [
          { position := (1, 1), cell_type := CellType.header, value := some (.s "Name") },
          { position := (1, 2), cell_type := CellType.header, value := some (.s "Qty") },
          { position := (1, 3), cell_type := CellType.header, value := some (.s "Price") },
          { position := (2, 1), cell_type := CellType.data, value := some (.s "apple") },
          { position := (2, 2), cell_type := CellType.data, value := some (.i 3) },
          { position := (2, 3), cell_type := CellType.data, value := some (.i 120) },
          { position := (3, 1), cell_type := CellType.data, value := some (.s "pear") },
          { position := (3, 2), cell_type := CellType.data, value := some (.i 5) },
          { position := (3, 3), cell_type := CellType.data, value := some (.i 90) },
          { position := (4, 1), cell_type := CellType.data, value := some (.s "plum") },
          { position := (4, 2), cell_type := CellType.data, value := some (.i 2) },
          { position := (4, 3), cell_type := CellType.data, value := some (.i 75) },
          { position := (5, 1), cell_type := CellType.data, value := some (.s "fig") },
          { position := (5, 2), cell_type := CellType.data, value := some (.i 8) },
          { position := (5, 3), cell_type := CellType.data, value := some (.i 60) },
          { position := (6, 1), cell_type := CellType.data, value := some (.s "kiwi") },
          { position := (6, 2), cell_type := CellType.data, value := some (.i 1) },
          { position := (6, 3), cell_type := CellType.data, value := some (.i 45) },
          { position := (8, 1), cell_type := CellType.merge, value := some (.s "Total"),
            merge_range := some ((8, 1), (8, 3)) }],
        column_widths := some [("A", 12), ("B", 8)],
        row_heights := some [(1, 20)],
        freeze_panes := some "B2" },
      { name := "Data2",
        cells := [{ position := (1, 1), cell_type := CellType.data, value := some (.i 7) }] }] }

/-- The C2 witness input: the documented scenario with the merge range
removed (the "Total" cell stays), so the reverse parse can finish. -/
def mergeFreeScenario : SWorkbook :=
  { sheets := [
      { name := "Summary",
        cells := [
          { position := (1, 1), cell_type := CellType.header, value := some (.s "Name") },
          { position := (1, 2), cell_type := CellType.header, value := some (.s "Qty") },
          { position := (1, 3), cell_type := CellType.header, value := some (.s "Price") },
          { position := (2, 1), cell_type := CellType.data, value := some (.s "apple") },
          { position := (2, 2), cell_type := CellType.data, value := some (.i 3) },
          { position := (2, 3), cell_type := CellType.data, value := some (.i 120) },
          { position := (3, 1), cell_type := CellType.data, value := some (.s "pear") },
          { position := (3, 2), cell_type := CellType.data, value := some (.i 5) },
          { position := (3, 3), cell_type := CellType.data, value := some (.i 90) },
          { position := (4, 1), cell_type := CellType.data, value := some (.s "plum") },
          { position := (4, 2), cell_type := CellType.data, value := some (.i 2) },
          { position := (4, 3), cell_type := CellType.data, value := some (.i 75) },
          { position := (5, 1), cell_type := CellType.data, value := some (.s "fig") },
          { position := (5, 2), cell_type := CellType.data, value := some (.i 8) },
          { position := (5, 3), cell_type := CellType.data, value := some (.i 60) },
          { position := (6, 1), cell_type := CellType.data, value := some (.s "kiwi") },
          { position := (6, 2), cell_type := CellType.data, value := some (.i 1) },
          { position := (6, 3), cell_type := CellType.data, value := some (.i 45) },
          { position := (8, 1), cell_type := CellType.data, value := some (.s "Total") }],
        column_widths := some [("A", 12), ("B", 8)],
        row_heights := some [(1, 20)],
        freeze_panes := some "B2" },
      { name := "Data2",
        cells := [{ position := (1, 1), cell_type := CellType.data, value := some (.i 7) }] }] }

/-! ## Theorems -/

/-- Character-level facts about Char.toUpper on the hexadecimal digits:
the uppercase image is again a hexadecimal digit, is not whitespace, is not
a hash, and is a fixed point of Char.toUpper. -/
theorem hexDigits_toUpper_facts :
    hexDigits.all (fun c =>
      hexDigits.contains c.toUpper && !pyIsSpace c.toUpper &&
      !(c.toUpper == '#') && (c.toUpper.toUpper == c.toUpper)) = true := by
  decide

theorem hex_mem_facts {c : Char} (hc : hexDigits.contains c = true) :
    hexDigits.contains c.toUpper = true ∧ pyIsSpace c.toUpper = false ∧
    c.toUpper ≠ '#' ∧ c.toUpper.toUpper = c.toUpper := by
  have h := hexDigits_toUpper_facts
  rw [List.all_eq_true] at h
  have hm : c ∈ hexDigits := by
    simpa [List.contains] using hc
  have := h c hm
  simp only [Bool.and_eq_true, Bool.not_eq_true', beq_iff_eq] at this
  refine ⟨this.1.1.1, this.1.1.2, ?_, this.2⟩
  intro hcontra
  have := this.1.2
  simp [hcontra] at this

theorem dropWhile_of_all_neg {p : Char → Bool} :
    ∀ l : List Char, (∀ c ∈ l, p c = false) → l.dropWhile p = l
  | [], _ => rfl
  | a :: as, h => by
    simp [List.dropWhile_cons, h a (List.mem_cons_self a as)]

theorem string_eq_of_toList {s t : String} (h : s.toList = t.toList) : s = t := by
  cases s; cases t
  simp only [String.toList] at h
  exact congrArg String.mk h

theorem pyUpper_toList (s : String) :
    (pyUpper s).toList = s.toList.map Char.toUpper := rfl

theorem map_id_of_fix {f : Char → Char} :
    ∀ l : List Char, (∀ c ∈ l, f c = c) → l.map f = l
  | [], _ => rfl
  | a :: as, h => by
    simp only [List.map_cons]
    rw [h a (List.mem_cons_self a as),
      map_id_of_fix as (fun c hc => h c (List.mem_cons_of_mem a hc))]

/-- A string all of whose characters are uppercased hexadecimal digits is a
fixed point of normalize_color. -/
theorem normalize_color_fix_of_hex6 (t : String) (h : isHex6 t = true) :
    normalize_color (pyUpper t) = pyUpper t := by
  have hlen : t.toList.length = 6 := by
    have h1 := (Bool.and_eq_true _ _).mp h |>.1
    simpa using h1
  have hall : ∀ c ∈ t.toList, hexDigits.contains c = true := by
    have := (Bool.and_eq_true _ _).mp h |>.2
    rw [List.all_eq_true] at this
    exact this
  set ul : List Char := t.toList.map Char.toUpper with hul
  have hulfacts : ∀ c ∈ ul, hexDigits.contains c = true ∧ pyIsSpace c = false ∧
      c ≠ '#' ∧ c.toUpper = c := by
    intro c hcul
    rcases List.mem_map.mp hcul with ⟨a, ha, rfl⟩
    exact hex_mem_facts (hall a ha)
  have hne : ul ≠ [] := by
    intro hnil
    rw [hul] at hnil
    have := List.map_eq_nil_iff.mp hnil
    rw [this] at hlen
    simp at hlen
  have hupl : (pyUpper t).toList = ul := by
    simp [pyUpper, hul]
  have hnempty : pyUpper t ≠ "" := by
    intro hcontra
    have : (pyUpper t).toList = ([] : List Char) := by rw [hcontra]; rfl
    rw [hupl] at this
    exact hne this
  have hstrip : pyStrip (pyUpper t) = pyUpper t := by
    unfold pyStrip
    rw [hupl]
    rw [dropWhile_of_all_neg ul (fun c hc => (hulfacts c hc).2.1)]
    rw [dropWhile_of_all_neg ul.reverse
      (fun c hc => (hulfacts c (List.mem_reverse.mp hc)).2.1)]
    rw [List.reverse_reverse]
    exact string_eq_of_toList (by rw [hupl]; rfl)
  have hhash : stripHash (pyUpper t) = pyUpper t := by
    unfold stripHash
    rw [hupl]
    cases hcase : ul with
    | nil => exact absurd hcase hne
    | cons c cs =>
      have : c ∈ ul := by rw [hcase]; exact List.mem_cons_self c cs
      simp [(hulfacts c this).2.2.1]
  have hhex : isHex6 (pyUpper t) = true := by
    unfold isHex6
    rw [hupl, Bool.and_eq_true]
    constructor
    · rw [hul, List.length_map, hlen]
      rfl
    · rw [List.all_eq_true]
      intro c hc
      exact (hulfacts c hc).1
  have hfix : pyUpper (pyUpper t) = pyUpper t := by
    apply string_eq_of_toList
    rw [pyUpper_toList, hupl]
    exact map_id_of_fix ul (fun c hc => (hulfacts c hc).2.2.2)
  unfold normalize_color
  rw [if_neg hnempty, hstrip, hhash, if_pos hhex, hfix]

/-- The possible results of normalize_color: either the default 000000, or
the uppercased six-digit core of the input. -/
theorem normalize_color_cases (x : String) :
    normalize_color x = "000000" ∨
    (isHex6 (stripHash (pyStrip x)) = true ∧
      normalize_color x = pyUpper (stripHash (pyStrip x))) := by
  unfold normalize_color
  by_cases hx : x = ""
  · left; rw [if_pos hx]
  · rw [if_neg hx]
    by_cases hh : isHex6 (stripHash (pyStrip x)) = true
    · right; exact ⟨hh, by rw [if_pos hh]⟩
    · left; rw [if_neg hh]

/-- C3 (amended): normalize_color is total (a Lean function) and idempotent;
an input whose whitespace-stripped, hash-stripped core is exactly six
hexadecimal characters maps to the uppercased core, and every other input
maps to 000000. -/
theorem C3_normalize_color_total_idempotent (x : String) :
    normalize_color (normalize_color x) = normalize_color x ∧
    (isHex6 (stripHash (pyStrip x)) = true →
      normalize_color x = pyUpper (stripHash (pyStrip x))) ∧
    (isHex6 (stripHash (pyStrip x)) = false → normalize_color x = "000000") := by
  refine ⟨?_, ?_, ?_⟩
  · rcases normalize_color_cases x with h | ⟨hh, h⟩
    · rw [h]; decide
    · rw [h]
      exact normalize_color_fix_of_hex6 _ hh
  · intro hh
    unfold normalize_color
    by_cases hx : x = ""
    · exfalso
      rw [hx] at hh
      revert hh
      decide
    · rw [if_neg hx, if_pos hh]
  · intro hh
    unfold normalize_color
    by_cases hx : x = ""
    · rw [if_pos hx]
    · rw [if_neg hx, if_neg (by simp [hh])]

/-- Witness for C3 at the concrete input "#abc123". -/
theorem C3_normalize_color_total_idempotent_witness :
    normalize_color (normalize_color "#abc123") = normalize_color "#abc123" ∧
    normalize_color "#abc123" = pyUpper (stripHash (pyStrip "#abc123")) :=
  ⟨(C3_normalize_color_total_idempotent "#abc123").1,
   (C3_normalize_color_total_idempotent "#abc123").2.1 (by decide)⟩

/-- C3 counterexample: on the input " abc123" (leading space) the code
strips the whitespace and returns "ABC123", while the claim as stated says
every input that is not six hex digits after only a hash strip yields
"000000". -/
theorem C3_counterexample :
    normalize_color " abc123" = "ABC123" ∧
    claimedNormalizeColor " abc123" = "000000" ∧
    normalize_color " abc123" ≠ claimedNormalizeColor " abc123" := by
  decide

/-- C10: when the sheets key is absent or empty, create_report assigns the
single default sheet list into the caller's configuration dictionary in
place; with a nonempty sheets list the configuration comes back unchanged. -/
theorem C10_config_mutation (config : ReportConfig) :
    ((config.sheets = none ∨ config.sheets = some []) →
      (createReport config).1 =
        { config with sheets := some [{ name := some "Sheet1" }] }) ∧
    (∀ s rest, config.sheets = some (s :: rest) → (createReport config).1 = config) := by
  constructor
  · rintro (h | h) <;> simp [createReport, h]
  · intro s rest h
    simp [createReport, h]

/-- Witness for C10 at the empty configuration and at a one-sheet
configuration. -/
theorem C10_config_mutation_witness :
    (createReport {}).1 = { sheets := some [{ name := some "Sheet1" }] } ∧
    (createReport { sheets := some [{ name := some "A" }] }).1 =
      { sheets := some [{ name := some "A" }] } :=
  ⟨(C10_config_mutation {}).1 (Or.inl rfl),
   (C10_config_mutation { sheets := some [{ name := some "A" }] }).2 _ _ rfl⟩

/-- C4: a configuration whose sheets key is absent or empty renders
successfully into a workbook with exactly one sheet named Sheet1 carrying
no cell values, no charts and no merges. -/
theorem C4_empty_sheets (config : ReportConfig)
    (h : config.sheets = none ∨ config.sheets = some []) :
    ∃ wb printed, (createReport config).2 = Except.ok (wb, printed) ∧
      wb.sheets.map Worksheet.title = ["Sheet1"] ∧
      ∀ ws ∈ wb.sheets, (∀ r c, (ws.cells (r, c)).value = none) ∧
        ws.charts = [] ∧ ws.merged = [] := by
  obtain ⟨sheets, props⟩ := config
  simp only at h
  have step : ∀ hs : sheets = none ∨ sheets = some [],
      (createReport ⟨sheets, props⟩).2 = Except.ok
        (⟨[{ title := "Sheet1", cells := fun _ => {}, columnWidths := [("A", 6)] }],
          match props with
          | some p => applyWorkbookProperties {} p
          | none => {}⟩, []) := by
    rintro (rfl | rfl) <;> rfl
  refine ⟨_, _, step h, rfl, ?_⟩
  intro ws hws
  simp only [List.mem_singleton] at hws
  subst hws
  exact ⟨fun r c => rfl, rfl, rfl⟩

/-- Witness for C4 at the empty configuration. -/
theorem C4_empty_sheets_witness :
    ∃ wb printed, (createReport {}).2 = Except.ok (wb, printed) ∧
      wb.sheets.map Worksheet.title = ["Sheet1"] ∧
      ∀ ws ∈ wb.sheets, (∀ r c, (ws.cells (r, c)).value = none) ∧
        ws.charts = [] ∧ ws.merged = [] :=
  C4_empty_sheets {} (Or.inl rfl)

/-- C8: every cell emitted by the reverse parser is typed formula when its
stored form is a formula expression, else header exactly when it sits in
row 1, else data. -/
theorem C8_cell_type_inference (ws : Worksheet) (cd : SCellDef)
    (h : cd ∈ (parseWorksheet ws).cells) :
    cd.cell_type =
      if isFormulaValue cd.value then CellType.formula
      else if cd.position.1 = 1 then CellType.header
      else CellType.data := by
  simp only [parseWorksheet, List.mem_flatMap, List.mem_filterMap] at h
  obtain ⟨r, hr, c, hc, hcd⟩ := h
  by_cases hcond :
      ((ws.cells (r, c)).value.isSome || (ws.cells (r, c)).styled) = true
  · rw [if_pos hcond] at hcd
    obtain rfl := Option.some.inj hcd
    rfl
  · rw [if_neg hcond] at hcd
    exact absurd hcd (Option.noConfusion)

/-- Witness for C8: one populated cell at row 1 of a fresh sheet. -/
theorem C8_cell_type_inference_witness :
    (parseCellAt (setValue (newWs "W") 1 1 (.s "T")) 1 1).cell_type =
      if isFormulaValue (parseCellAt (setValue (newWs "W") 1 1 (.s "T")) 1 1).value
      then CellType.formula
      else if (parseCellAt (setValue (newWs "W") 1 1 (.s "T")) 1 1).position.1 = 1
      then CellType.header
      else CellType.data :=
  C8_cell_type_inference (setValue (newWs "W") 1 1 (.s "T")) _ (by
    rw [show (parseWorksheet (setValue (newWs "W") 1 1 (Value.s "T"))).cells =
      [parseCellAt (setValue (newWs "W") 1 1 (Value.s "T")) 1 1] from rfl]
    exact List.mem_singleton.mpr rfl)

/-- C9: whatever create_report returns, the job snapshot trace starts at the
pending default state, every adjacent pair of snapshots is a legal step
(status moves only forward along pending, processing, completed or failed
and progress never decreases), and the deduplicated status sequence is
exactly pending, processing, failed with no skip from pending to a terminal
state. -/
theorem C9_job_lifecycle (genRes : Except String String) :
    List.Chain' jobStepOk (processReportJobTrace genRes) ∧
    (processReportJobTrace genRes).head? = some {} ∧
    ((processReportJobTrace genRes).map JobState.status).dedup =
      [JobStatus.pending, JobStatus.processing, JobStatus.failed] := by
  rcases genRes with e | path <;>
    refine ⟨?_, rfl, ?_⟩ <;>
    simp [processReportJobTrace, getWarningsResult, List.chain'_cons, jobStepOk,
      statusStepOk, List.dedup_cons_of_mem, List.dedup_cons_of_not_mem]

/-- C1: on the documented two-chart configuration (one valid chart, one
with an unresolvable data_range) create_report itself succeeds with exactly
one printed warning, but the document carries two chart objects, one of
them without a data range; and the async job wrapper ends in status failed
at progress 50 with an AttributeError, because _process_report_job calls
generator.get_warnings() and ExcelReportGenerator defines no such method —
not in status completed with one chart and one recorded warning as
claimed. -/
theorem C1_chart_job_outcome :
    ((createReport chartResilienceConfig).2.map (fun r => r.2)) =
      Except.ok ["Warning: Could not add chart data range S!INVALID"] ∧
    ((createReport chartResilienceConfig).2.map
      (fun r => r.1.sheets.map (fun ws => ws.charts.length))) = Except.ok [2] ∧
    ((createReport chartResilienceConfig).2.map
      (fun r => r.1.sheets.map (fun ws =>
        (ws.charts.filter (fun ch => ch.dataRange.isSome)).length))) = Except.ok [1] ∧
    finalJobState chartResilienceConfig "report.xlsx" =
      some { status := JobStatus.failed, progress := 50,
             error_message :=
               some "AttributeError: ExcelReportGenerator object has no attribute get_warnings" } := by
  refine ⟨?_, ?_, ?_, ?_⟩ <;> rfl

theorem updateCell_cells (ws : Worksheet) (r c : Nat) (f : PyCell → PyCell) (p : Nat × Nat) :
    (updateCell ws r c f).cells p =
      if p = (r, c) then f (ws.cells p) else ws.cells p := rfl

theorem setFill_cells (ws : Worksheet) (r c : Nat) (color : String) (p : Nat × Nat) :
    (setFill ws r c color).cells p =
      if p = (r, c) then { ws.cells p with fill := some color, styled := true }
      else ws.cells p := rfl

theorem setFill_maxColRaw (ws : Worksheet) (r c : Nat) (color : String) :
    (setFill ws r c color).maxColRaw = max ws.maxColRaw c := rfl

theorem wsMaxCol_setFill (ws : Worksheet) (r c : Nat) (color : String)
    (h : c ≤ wsMaxCol ws) : wsMaxCol (setFill ws r c color) = wsMaxCol ws := by
  unfold wsMaxCol at h ⊢
  rw [setFill_maxColRaw]
  omega

theorem mem_rangeList {a b m : Nat} : m ∈ rangeList a b ↔ a ≤ m ∧ m ≤ b := by
  rw [rangeList, List.mem_range'_1]
  omega

theorem foldl_setFill_cells (r : Nat) (color : String) :
    ∀ (L : List Nat) (ws : Worksheet) (p : Nat × Nat),
      ((L.foldl (fun ws c => setFill ws r c color) ws).cells p) =
        if p.1 = r ∧ p.2 ∈ L then
          { ws.cells p with fill := some color, styled := true }
        else ws.cells p := by
  intro L
  induction L with
  | nil => intro ws p; simp
  | cons a as ih =>
    intro ws p
    rw [List.foldl_cons, ih]
    simp only [setFill_cells]
    obtain ⟨pr, pc⟩ := p
    by_cases h1 : pr = r
    · subst h1
      by_cases h2 : pc ∈ as
      · by_cases h3 : pc = a <;> simp [h2, h3, Prod.ext_iff]
      · by_cases h3 : pc = a
        · subst h3
          simp [h2]
        · simp [h2, h3, Prod.ext_iff]
    · simp [h1, Prod.ext_iff, fun h => h1 h]

theorem foldl_setFill_maxCol (r : Nat) (color : String) :
    ∀ (L : List Nat) (ws : Worksheet), (∀ c ∈ L, c ≤ wsMaxCol ws) →
      wsMaxCol (L.foldl (fun ws c => setFill ws r c color) ws) = wsMaxCol ws := by
  intro L
  induction L with
  | nil => intro ws _; rfl
  | cons a as ih =>
    intro ws h
    rw [List.foldl_cons]
    have ha := wsMaxCol_setFill ws r a color (h a (List.mem_cons_self a as))
    rw [ih _ (fun c hc => by rw [ha]; exact h c (List.mem_cons_of_mem a hc)), ha]

theorem fillRow_cells (ws : Worksheet) (r : Nat) (color : String) (p : Nat × Nat) :
    (fillRow ws r color).cells p =
      if p.1 = r ∧ p.2 ∈ rangeList 1 (wsMaxCol ws) then
        { ws.cells p with fill := some color, styled := true }
      else ws.cells p :=
  foldl_setFill_cells r color (rangeList 1 (wsMaxCol ws)) ws p

theorem fillRow_maxCol (ws : Worksheet) (r : Nat) (color : String) :
    wsMaxCol (fillRow ws r color) = wsMaxCol ws :=
  foldl_setFill_maxCol r color _ ws (fun c hc => (mem_rangeList.mp hc).2)

theorem rows_fold_preserves (color1 color2 : String) (r c : Nat) :
    ∀ (L : List Nat) (ws : Worksheet), r ∉ L →
      ((L.foldl (fun ws rr => fillRow ws rr (if rr % 2 = 0 then color1 else color2)) ws).cells
        (r, c)) = ws.cells (r, c) := by
  intro L
  induction L with
  | nil => intro ws _; rfl
  | cons a as ih =>
    intro ws h
    rw [List.foldl_cons, ih _ (fun hh => h (List.mem_cons_of_mem a hh)), fillRow_cells,
      if_neg (fun hc => h (by rw [show r = a from hc.1]; exact List.mem_cons_self a as))]

theorem rows_fold_fill (color1 color2 : String) :
    ∀ (rows : List Nat) (ws : Worksheet) (r c : Nat),
      r ∈ rows → 1 ≤ c → c ≤ wsMaxCol ws →
      (((rows.foldl (fun ws rr => fillRow ws rr (if rr % 2 = 0 then color1 else color2)) ws).cells
          (r, c)).fill) = some (if r % 2 = 0 then color1 else color2) := by
  intro rows
  induction rows with
  | nil => intro ws r c h _ _; exact absurd h (List.not_mem_nil r)
  | cons a as ih =>
    intro ws r c hmem h1 hc
    rw [List.foldl_cons]
    by_cases hr : r ∈ as
    · exact ih _ r c hr h1 (by rw [fillRow_maxCol]; exact hc)
    · have hra : r = a := by
        rcases List.mem_cons.mp hmem with h | h
        · exact h
        · exact absurd h hr
      subst hra
      rw [rows_fold_preserves color1 color2 r c as _ hr, fillRow_cells,
        if_pos ⟨rfl, mem_rangeList.mpr ⟨h1, hc⟩⟩]

/-- C5: for a fully specified alternating_rows configuration, every cell of
the band start_row..end_row across columns 1..max_column ends with a solid
fill of color1 on even rows and color2 on odd rows, whatever fill it had
before. -/
theorem C5_alternating_rows (ws : Worksheet) (sr er : Nat) (c1 c2 : String)
    (r c : Nat) (hr1 : sr ≤ r) (hr2 : r ≤ er) (hc1 : 1 ≤ c) (hc2 : c ≤ wsMaxCol ws) :
    ((applyAlternatingRows ws
        { start_row := some sr, end_row := some er,
          color1 := some c1, color2 := some c2 }).cells (r, c)).fill =
      some (if r % 2 = 0 then c1 else c2) := by
  unfold applyAlternatingRows
  exact rows_fold_fill c1 c2 (rangeList sr er) ws r c
    (mem_rangeList.mpr ⟨hr1, hr2⟩) hc1 hc2

/-- Witness for C5 on a 2-column sheet with the band 2..5: row 2 is even and
gets color1, row 5 is odd and gets color2. -/
theorem C5_alternating_rows_witness :
    ((applyAlternatingRows (setValue (newWs "S") 1 2 (.s "x"))
        { start_row := some 2, end_row := some 5,
          color1 := some "FFFFFF", color2 := some "F2F2F2" }).cells (2, 1)).fill =
      some (if 2 % 2 = 0 then "FFFFFF" else "F2F2F2") ∧
    ((applyAlternatingRows (setValue (newWs "S") 1 2 (.s "x"))
        { start_row := some 2, end_row := some 5,
          color1 := some "FFFFFF", color2 := some "F2F2F2" }).cells (5, 2)).fill =
      some (if 5 % 2 = 0 then "FFFFFF" else "F2F2F2") :=
  ⟨C5_alternating_rows _ 2 5 "FFFFFF" "F2F2F2" 2 1 (by decide) (by decide) (by decide)
    (by decide),
   C5_alternating_rows _ 2 5 "FFFFFF" "F2F2F2" 5 2 (by decide) (by decide) (by decide)
    (by decide)⟩

theorem addChartStep_cells (acc : Worksheet × List String) (cfg : ChartCfg) :
    (addChartStep acc cfg).1.cells = acc.1.cells := by
  unfold addChartStep
  cases h : chartKindOf (cfg.type.getD "bar") <;> simp only [h]

theorem addCharts_cells (ws : Worksheet) (charts : List ChartCfg) :
    (addCharts ws charts).1.cells = ws.cells := by
  unfold addCharts
  suffices h : ∀ acc : Worksheet × List String,
      (charts.foldl addChartStep acc).1.cells = acc.1.cells from h (ws, [])
  induction charts with
  | nil => intro acc; rfl
  | cons c cs ih =>
    intro acc
    rw [List.foldl_cons, ih, addChartStep_cells]

theorem chartListErrors_mem (sheet_name ty : String)
    (hty : ¬(ty = "bar" ∨ ty = "line" ∨ ty = "pie")) :
    ∀ (cs : List ChartCfg) (j : Nat) (chart : ChartCfg), chart ∈ cs →
      chart.type = some ty →
      ("Invalid chart type " ++ ty ++ " in sheet " ++ sheet_name) ∈
        chartListErrors sheet_name j cs := by
  intro cs
  induction cs with
  | nil => intro j chart h; exact absurd h (List.not_mem_nil chart)
  | cons c rest ih =>
    intro j chart h hchart
    rw [chartListErrors]
    rcases List.mem_cons.mp h with rfl | h2
    · apply List.mem_append_left
      unfold chartErrors
      apply List.mem_append_right
      rw [hchart]
      simp only [Option.getD_some]
      rw [if_neg hty]
      exact List.mem_singleton.mpr rfl
    · exact List.mem_append_right _ (ih (j + 1) chart h2 hchart)

theorem sheetListErrors_mem (msg : String) (sheet : SheetCfg)
    (hmsg : ∀ i : Nat, msg ∈ sheetErrors i sheet) :
    ∀ (ss : List SheetCfg) (i : Nat), sheet ∈ ss → msg ∈ sheetListErrors i ss := by
  intro ss
  induction ss with
  | nil => intro i h; exact absurd h (List.not_mem_nil sheet)
  | cons s rest ih =>
    intro i h
    rw [sheetListErrors]
    rcases List.mem_cons.mp h with rfl | h2
    · exact List.mem_append_left _ (hmsg i)
    · exact List.mem_append_right _ (ih (i + 1) h2)

/-- C7: an unrecognized chart type is silently dropped by the generator: the
chart contributes neither a chart object nor a printed warning, the rest of
the chart list is processed as if it were absent, and chart handling never
touches the cell grid; the pre-flight validate_config, however, lists the
same invalid type as an error. -/
theorem C7_invalid_chart_type (ty : String)
    (hty : ty ≠ "bar" ∧ ty ≠ "line" ∧ ty ≠ "pie") :
    (∀ (ws : Worksheet) (bad : ChartCfg) (rest : List ChartCfg), bad.type = some ty →
      addCharts ws (bad :: rest) = addCharts ws rest) ∧
    (∀ (ws : Worksheet) (charts : List ChartCfg), (addCharts ws charts).1.cells = ws.cells) ∧
    (∀ (config : ReportConfig) (ss : List SheetCfg) (sheet : SheetCfg) (nm : String)
        (cs : List ChartCfg) (chart : ChartCfg),
      config.sheets = some ss → sheet ∈ ss → sheet.name = some nm →
      sheet.charts = some cs → chart ∈ cs → chart.type = some ty →
      ("Invalid chart type " ++ ty ++ " in sheet " ++ nm) ∈ validateConfigErrors config) := by
  have hkind : chartKindOf ty = none := by
    unfold chartKindOf
    rw [if_neg hty.1, if_neg hty.2.1, if_neg hty.2.2]
  refine ⟨?_, fun ws charts => addCharts_cells ws charts, ?_⟩
  · intro ws bad rest hbad
    unfold addCharts
    rw [List.foldl_cons]
    congr 1
    unfold addChartStep
    rw [hbad]
    simp only [Option.getD_some]
    rw [hkind]
  · intro config ss sheet nm cs chart hcfg hsheet hnm hcs hchart hcharttype
    unfold validateConfigErrors
    rw [hcfg]
    have hss : ss ≠ [] := by
      intro hnil
      rw [hnil] at hsheet
      exact List.not_mem_nil sheet hsheet
    rcases ss with _ | ⟨s0, srest⟩
    · exact absurd rfl hss
    · refine sheetListErrors_mem _ sheet (fun i => ?_) (s0 :: srest) 0 hsheet
      unfold sheetErrors
      rw [hcs, hnm]
      simp only [Option.getD_some]
      exact chartListErrors_mem nm ty
        (fun h => by rcases h with h | h | h <;> [exact hty.1 h; exact hty.2.1 h; exact hty.2.2 h])
        cs 0 chart hchart hcharttype

/-- Witness for C7 at the type scatter. -/
theorem C7_invalid_chart_type_witness :
    addCharts (newWs "S") [{ type := some "scatter" }] = addCharts (newWs "S") [] ∧
    ("Invalid chart type " ++ "scatter" ++ " in sheet " ++ "S") ∈ validateConfigErrors
      { sheets := some [{ name := some "S", charts := some [{ type := some "scatter" }] }] } :=
  ⟨(C7_invalid_chart_type "scatter" ⟨by decide, by decide, by decide⟩).1
      (newWs "S") { type := some "scatter" } [] rfl,
   (C7_invalid_chart_type "scatter" ⟨by decide, by decide, by decide⟩).2.2
      _ _ _ "S" _ { type := some "scatter" } rfl (List.mem_singleton.mpr rfl) rfl rfl
      (List.mem_singleton.mpr rfl) rfl⟩

theorem string_toList_append (s t : String) : (s ++ t).toList = s.toList ++ t.toList := by
  cases s; cases t; rfl

theorem letterChar_toNat (n : Nat) (h1 : 1 ≤ n) (h2 : n ≤ 26) :
    (Char.ofNat (64 + n)).toNat = 64 + n := by
  interval_cases n <;> decide

theorem letterChar_toNat2 (m : Nat) (h : m < 26) :
    (Char.ofNat (65 + m)).toNat = 65 + m := by
  interval_cases m <;> decide

theorem cifs_append (s t : String) :
    columnIndexFromString (s ++ t) =
      t.toList.foldl (fun acc c => acc * 26 + (c.toNat - 64)) (columnIndexFromString s) := by
  unfold columnIndexFromString
  rw [string_toList_append, List.foldl_append]

theorem getColumnLetterAux_inverse :
    ∀ (fuel n : Nat), 1 ≤ n → n ≤ fuel →
      columnIndexFromString (getColumnLetterAux fuel n) = n := by
  intro fuel
  induction fuel with
  | zero => intro n h1 h2; omega
  | succ fuel ih =>
    intro n h1 h2
    rw [getColumnLetterAux]
    by_cases h : n ≤ 26
    · rw [if_pos h]
      show (String.mk [Char.ofNat (64 + n)]).toList.foldl
        (fun acc c => acc * 26 + (c.toNat - 64)) 0 = n
      rw [show (String.mk [Char.ofNat (64 + n)]).toList = [Char.ofNat (64 + n)] from rfl]
      simp only [List.foldl_cons, List.foldl_nil]
      rw [letterChar_toNat n h1 h]
      omega
    · rw [if_neg h]
      have hq1 : 1 ≤ (n - 1) / 26 := by
        rw [Nat.le_div_iff_mul_le (by norm_num)]
        omega
      have hq2 : (n - 1) / 26 ≤ fuel := by
        have hle : (n - 1) / 26 ≤ n - 1 := Nat.div_le_self _ _
        omega
      rw [cifs_append]
      rw [show (String.mk [Char.ofNat (65 + (n - 1) % 26)]).toList =
        [Char.ofNat (65 + (n - 1) % 26)] from rfl]
      simp only [List.foldl_cons, List.foldl_nil]
      rw [ih _ hq1 hq2, letterChar_toNat2 _ (Nat.mod_lt _ (by norm_num))]
      have hdm := Nat.div_add_mod (n - 1) 26
      omega

theorem getColumnLetter_inverse (n : Nat) (h : 1 ≤ n) :
    columnIndexFromString (getColumnLetter n) = n :=
  getColumnLetterAux_inverse n n h (Nat.le_refl n)

theorem getColumnLetter_injOn {a b : Nat} (ha : 1 ≤ a) (hb : 1 ≤ b)
    (h : getColumnLetter a = getColumnLetter b) : a = b := by
  have h2 := getColumnLetter_inverse a ha
  rw [h, getColumnLetter_inverse b hb] at h2
  exact h2.symm

theorem find?_map_assoc {α : Type} [DecidableEq α] (k : α) (v : Nat) :
    ∀ l : List (α × Nat), l.any (fun p => p.1 = k) = true →
      (l.map (fun p => if p.1 = k then (k, v) else p)).find? (fun p => p.1 = k) =
        some (k, v) := by
  intro l
  induction l with
  | nil => intro h; simp at h
  | cons a as ih =>
    intro h
    by_cases ha : a.1 = k
    · rw [List.map_cons, if_pos ha, List.find?_cons_of_pos _ (by simp)]
    · have h2 : as.any (fun p => p.1 = k) = true := by
        simp only [List.any_cons, Bool.or_eq_true, decide_eq_true_eq] at h
        rcases h with h | h
        · exact absurd h ha
        · simpa using h
      rw [List.map_cons, if_neg ha, List.find?_cons_of_neg _ (by simpa using ha)]
      exact ih h2

theorem find?_map_ne {α : Type} [DecidableEq α] (k k' : α) (v : Nat) (h : k' ≠ k) :
    ∀ l : List (α × Nat),
      (l.map (fun p => if p.1 = k then (k, v) else p)).find? (fun p => p.1 = k') =
        l.find? (fun p => p.1 = k') := by
  intro l
  induction l with
  | nil => rfl
  | cons a as ih =>
    by_cases ha : a.1 = k
    · rw [List.map_cons, if_pos ha,
        List.find?_cons_of_neg _ (by simp; exact fun hc => h hc.symm),
        List.find?_cons_of_neg _ (by simp [ha]; exact fun hc => h hc.symm)]
      exact ih
    · rw [List.map_cons, if_neg ha]
      by_cases ha' : a.1 = k'
      · rw [List.find?_cons_of_pos _ (by simpa using ha'),
          List.find?_cons_of_pos _ (by simpa using ha')]
      · rw [List.find?_cons_of_neg _ (by simpa using ha'),
          List.find?_cons_of_neg _ (by simpa using ha')]
        exact ih

theorem assocLookup_assocSet_self {α : Type} [DecidableEq α]
    (l : List (α × Nat)) (k : α) (v : Nat) :
    assocLookup (assocSet l k v) k = some v := by
  unfold assocSet assocLookup
  by_cases h : l.any (fun p => p.1 = k)
  · rw [if_pos h, find?_map_assoc k v l h]
    rfl
  · rw [if_neg h]
    have hnone : l.find? (fun p => p.1 = k) = none := by
      rw [List.find?_eq_none]
      intro x hx hpx
      exact h (List.any_eq_true.mpr ⟨x, hx, hpx⟩)
    rw [List.find?_append, hnone]
    simp [List.find?]

theorem assocLookup_assocSet_other {α : Type} [DecidableEq α]
    (l : List (α × Nat)) (k k' : α) (v : Nat) (h : k' ≠ k) :
    assocLookup (assocSet l k v) k' = assocLookup l k' := by
  unfold assocSet assocLookup
  by_cases hany : l.any (fun p => p.1 = k)
  · rw [if_pos hany, find?_map_ne k k' v h l]
  · rw [if_neg hany, List.find?_append]
    by_cases hfound : (l.find? (fun p => p.1 = k')).isSome
    · obtain ⟨x, hx⟩ := Option.isSome_iff_exists.mp hfound
      rw [hx]
      rfl
    · rw [Option.not_isSome_iff_eq_none.mp hfound]
      simp [List.find?, show (decide ((k, v).1 = k')) = false by
        simp; exact fun hc => h hc.symm]

theorem colMaxLen_adjustColumnStep (ws : Worksheet) (c' c : Nat) :
    colMaxLen (adjustColumnStep ws c') c = colMaxLen ws c := rfl

theorem wsMaxCol_adjustColumnStep (ws : Worksheet) (c' : Nat) :
    wsMaxCol (adjustColumnStep ws c') = wsMaxCol ws := rfl

theorem adjustColumnStep_widths (ws : Worksheet) (c : Nat) :
    (adjustColumnStep ws c).columnWidths =
      assocSet ws.columnWidths (getColumnLetter c) (min (colMaxLen ws c + 2) 50) := rfl

theorem foldl_adjust_lookup_untouched :
    ∀ (L : List Nat) (ws : Worksheet) (key : String),
      (∀ x ∈ L, getColumnLetter x ≠ key) →
      assocLookup ((L.foldl adjustColumnStep ws).columnWidths) key =
        assocLookup ws.columnWidths key := by
  intro L
  induction L with
  | nil => intro ws key _; rfl
  | cons a as ih =>
    intro ws key h
    rw [List.foldl_cons, ih _ _ (fun x hx => h x (List.mem_cons_of_mem a hx)),
      adjustColumnStep_widths,
      assocLookup_assocSet_other _ _ _ _ (fun hk => h a (List.mem_cons_self a as) hk.symm)]

theorem foldl_adjust_lookup :
    ∀ (L : List Nat) (ws : Worksheet) (c : Nat), c ∈ L → L.Nodup → (∀ x ∈ L, 1 ≤ x) →
      assocLookup ((L.foldl adjustColumnStep ws).columnWidths) (getColumnLetter c) =
        some (min (colMaxLen ws c + 2) 50) := by
  intro L
  induction L with
  | nil => intro ws c h _ _; exact absurd h (List.not_mem_nil c)
  | cons a as ih =>
    intro ws c hmem hnd hpos
    rw [List.foldl_cons]
    rcases List.mem_cons.mp hmem with rfl | h2
    · have hna : c ∉ as := (List.nodup_cons.mp hnd).1
      rw [foldl_adjust_lookup_untouched as _ _ (fun x hx heq => hna (by
          rw [getColumnLetter_injOn (hpos x (List.mem_cons_of_mem c hx))
            (hpos c (List.mem_cons_self c as)) heq] at hx
          exact hx)),
        adjustColumnStep_widths, assocLookup_assocSet_self]
    · rw [ih (adjustColumnStep ws a) c h2 (List.nodup_cons.mp hnd).2
        (fun x hx => hpos x (List.mem_cons_of_mem a hx)), colMaxLen_adjustColumnStep]

/-- C6 (amended): when auto_adjust_columns runs, every column c of the used
range 1..max_column gets width min(L + 2, 50), where L is the maximum
length of the Python string form of EVERY cell of the column over rows
1..max_row, an empty cell reading as the four-character string None. -/
theorem C6_auto_width (ws : Worksheet) (c : Nat) (h1 : 1 ≤ c) (hc : c ≤ wsMaxCol ws) :
    assocLookup (autoAdjustColumns ws).columnWidths (getColumnLetter c) =
      some (min (colMaxLen ws c + 2) 50) := by
  unfold autoAdjustColumns
  exact foldl_adjust_lookup (rangeList 1 (wsMaxCol ws)) ws c
    (mem_rangeList.mpr ⟨h1, hc⟩)
    (by rw [rangeList]; exact List.nodup_range' _ _)
    (fun x hx => (mem_rangeList.mp hx).1)

/-- Witness for C6 on a one-cell sheet whose single string has 80
characters: the computed width is capped at exactly 50. -/
theorem C6_auto_width_witness :
    assocLookup
      (autoAdjustColumns (setValue (newWs "S") 1 1
        (.s (String.mk (List.replicate 80 'a'))))).columnWidths
      (getColumnLetter 1) =
      some (min (colMaxLen (setValue (newWs "S") 1 1
        (.s (String.mk (List.replicate 80 'a')))) 1 + 2) 50) ∧
    min (colMaxLen (setValue (newWs "S") 1 1
      (.s (String.mk (List.replicate 80 'a')))) 1 + 2) 50 = 50 :=
  ⟨C6_auto_width _ 1 (by decide) (by decide), by decide⟩

/-- C6 counterexample: in the rendered sparse sheet, column B contains one
populated cell of length 2 and one empty cell; the code computes width
min(4 + 2, 50) = 6 because the empty cell reads as the string None, while
the claimed populated-cells-only rule gives min(2 + 2, 50) = 4. -/
theorem C6_counterexample :
    ((createReport sparseColumnConfig).2.map
      (fun r => r.1.sheets.map (fun ws => assocLookup ws.columnWidths "B"))) =
      Except.ok [some 6] ∧
    ((createReport sparseColumnConfig).2.map
      (fun r => r.1.sheets.map (fun ws => claimedColWidth ws 2))) = Except.ok [4] ∧
    (6 : Nat) ≠ 4 := by
  refine ⟨by rfl, by rfl, by decide⟩

theorem string_mk_toList (s : String) : String.mk s.toList = s := by
  cases s; rfl

theorem digitChar_facts (d : Nat) (h : d < 10) :
    (Char.ofNat (48 + d)).toNat = 48 + d ∧ (Char.ofNat (48 + d)).isDigit = true ∧
    (Char.ofNat (48 + d)).isAlpha = false ∧ (Char.ofNat (48 + d)) ≠ ':' := by
  interval_cases d <;> exact ⟨by decide, by decide, by decide, by decide⟩

theorem letterChar_more (n : Nat) (h1 : 1 ≤ n) (h2 : n ≤ 26) :
    (Char.ofNat (64 + n)).isAlpha = true ∧ (Char.ofNat (64 + n)).isDigit = false ∧
    (Char.ofNat (64 + n)) ≠ ':' := by
  interval_cases n <;> exact ⟨by decide, by decide, by decide⟩

theorem letterChar_more2 (m : Nat) (h : m < 26) :
    (Char.ofNat (65 + m)).isAlpha = true ∧ (Char.ofNat (65 + m)).isDigit = false ∧
    (Char.ofNat (65 + m)) ≠ ':' := by
  interval_cases m <;> exact ⟨by decide, by decide, by decide⟩

theorem natReprAux_digits :
    ∀ (fuel n : Nat), ∀ c ∈ natReprAux fuel n,
      c.isDigit = true ∧ c.isAlpha = false ∧ c ≠ ':' := by
  intro fuel
  induction fuel with
  | zero => intro n c hc; simp [natReprAux] at hc
  | succ fuel ih =>
    intro n c hc
    rw [natReprAux] at hc
    by_cases h : n < 10
    · rw [if_pos h] at hc
      obtain rfl := List.mem_singleton.mp hc
      have hd := digitChar_facts n h
      exact ⟨hd.2.1, hd.2.2.1, hd.2.2.2⟩
    · rw [if_neg h] at hc
      rcases List.mem_append.mp hc with hc | hc
      · exact ih _ c hc
      · obtain rfl := List.mem_singleton.mp hc
        have hd := digitChar_facts (n % 10) (Nat.mod_lt _ (by norm_num))
        exact ⟨hd.2.1, hd.2.2.1, hd.2.2.2⟩

theorem natReprAux_inverse :
    ∀ (fuel n : Nat), n < fuel → natOfDigits (natReprAux fuel n) = n := by
  intro fuel
  induction fuel with
  | zero => intro n h; omega
  | succ fuel ih =>
    intro n h
    rw [natReprAux]
    by_cases h10 : n < 10
    · rw [if_pos h10]
      unfold natOfDigits
      simp only [List.foldl_cons, List.foldl_nil]
      rw [(digitChar_facts n h10).1]
      omega
    · rw [if_neg h10]
      unfold natOfDigits
      rw [List.foldl_append]
      simp only [List.foldl_cons, List.foldl_nil]
      have hq : n / 10 < fuel := by
        have := Nat.div_lt_self (by omega : 0 < n) (by norm_num : 1 < 10)
        omega
      have ihq := ih (n / 10) hq
      unfold natOfDigits at ihq
      rw [ihq, (digitChar_facts (n % 10) (Nat.mod_lt _ (by norm_num))).1]
      have hdm := Nat.div_add_mod n 10
      omega

theorem pyNatRepr_inverse (n : Nat) : natOfDigits (pyNatRepr n).toList = n := by
  rw [show (pyNatRepr n).toList = natReprAux (n + 1) n from rfl]
  exact natReprAux_inverse (n + 1) n (Nat.lt_succ_self n)

theorem pyNatRepr_chars (n : Nat) :
    ∀ c ∈ (pyNatRepr n).toList, c.isDigit = true ∧ c.isAlpha = false ∧ c ≠ ':' :=
  fun c hc => natReprAux_digits (n + 1) n c hc

theorem getColumnLetterAux_chars :
    ∀ (fuel n : Nat), 1 ≤ n → ∀ c ∈ (getColumnLetterAux fuel n).toList,
      c.isAlpha = true ∧ c.isDigit = false ∧ c ≠ ':' := by
  intro fuel
  induction fuel with
  | zero => intro n _ c hc; simp [getColumnLetterAux] at hc
  | succ fuel ih =>
    intro n h1 c hc
    rw [getColumnLetterAux] at hc
    by_cases h : n ≤ 26
    · rw [if_pos h] at hc
      obtain rfl := List.mem_singleton.mp hc
      exact letterChar_more n h1 h
    · rw [if_neg h] at hc
      rw [string_toList_append] at hc
      rcases List.mem_append.mp hc with hc | hc
      · have hq1 : 1 ≤ (n - 1) / 26 := by
          rw [Nat.le_div_iff_mul_le (by norm_num)]
          omega
        exact ih _ hq1 c hc
      · obtain rfl := List.mem_singleton.mp hc
        exact letterChar_more2 _ (Nat.mod_lt _ (by norm_num))

theorem getColumnLetter_chars (n : Nat) (h : 1 ≤ n) :
    ∀ c ∈ (getColumnLetter n).toList,
      c.isAlpha = true ∧ c.isDigit = false ∧ c ≠ ':' :=
  getColumnLetterAux_chars n n h

theorem fromAddress_excelAddress (p : Nat × Nat) (h1 : 1 ≤ p.1) (h2 : 1 ≤ p.2) :
    fromAddress (excelAddress p) = p := by
  obtain ⟨r, c⟩ := p
  unfold fromAddress excelAddress
  rw [string_toList_append]
  have hl := getColumnLetter_chars c h2
  have hd := pyNatRepr_chars r
  rw [List.filter_append, List.filter_append,
    List.filter_eq_self.mpr (fun a ha => (hd a ha).1),
    List.filter_eq_nil_iff.mpr (fun a ha => by simp [(hl a ha).2.1]),
    List.filter_eq_self.mpr (fun a ha => (hl a ha).1),
    List.filter_eq_nil_iff.mpr (fun a ha => by simp [(hd a ha).2.1])]
  rw [List.nil_append, List.append_nil]
  rw [pyNatRepr_inverse, string_mk_toList, getColumnLetter_inverse c h2]

theorem splitOnChar_no_sep (sep : Char) :
    ∀ l : List Char, (∀ c ∈ l, c ≠ sep) → splitOnChar sep l = [l] := by
  intro l
  induction l with
  | nil => intro _; rfl
  | cons a as ih =>
    intro h
    rw [splitOnChar, if_neg (h a (List.mem_cons_self a as)),
      ih (fun c hc => h c (List.mem_cons_of_mem a hc))]

theorem splitOnChar_append_sep (sep : Char) :
    ∀ (x y : List Char), (∀ c ∈ x, c ≠ sep) → (∀ c ∈ y, c ≠ sep) →
      splitOnChar sep (x ++ sep :: y) = [x, y] := by
  intro x
  induction x with
  | nil =>
    intro y _ hy
    rw [List.nil_append, splitOnChar, if_pos rfl, splitOnChar_no_sep sep y hy]
  | cons a as ih =>
    intro y hx hy
    rw [List.cons_append, splitOnChar, if_neg (hx a (List.mem_cons_self a as)),
      ih y (fun c hc => hx c (List.mem_cons_of_mem a hc)) hy]

theorem excelRange_toList (mr : (Nat × Nat) × (Nat × Nat)) :
    (excelRange mr).toList =
      (excelAddress mr.1).toList ++ ':' :: (excelAddress mr.2).toList := by
  unfold excelRange
  rw [string_toList_append, string_toList_append, List.append_assoc]
  rfl

theorem excelAddress_chars (p : Nat × Nat) (h2 : 1 ≤ p.2) :
    ∀ c ∈ (excelAddress p).toList, c ≠ ':' := by
  intro c hc
  unfold excelAddress at hc
  rw [string_toList_append] at hc
  rcases List.mem_append.mp hc with hc | hc
  · exact (getColumnLetter_chars p.2 h2 c hc).2.2
  · exact (pyNatRepr_chars p.1 c hc).2.2

theorem excelRange_inj {mr1 mr2 : (Nat × Nat) × (Nat × Nat)}
    (ha1 : 1 ≤ mr1.1.1) (ha2 : 1 ≤ mr1.1.2) (ha3 : 1 ≤ mr1.2.2)
    (hb1 : 1 ≤ mr2.1.1) (hb2 : 1 ≤ mr2.1.2) (hb3 : 1 ≤ mr2.2.2)
    (ha4 : 1 ≤ mr1.2.1) (hb4 : 1 ≤ mr2.2.1)
    (h : excelRange mr1 = excelRange mr2) : mr1 = mr2 := by
  have h' := congrArg String.toList h
  rw [excelRange_toList, excelRange_toList] at h'
  have hsplit := congrArg (splitOnChar ':') h'
  rw [splitOnChar_append_sep ':' _ _ (excelAddress_chars mr1.1 ha2)
      (excelAddress_chars mr1.2 ha3),
    splitOnChar_append_sep ':' _ _ (excelAddress_chars mr2.1 hb2)
      (excelAddress_chars mr2.2 hb3)] at hsplit
  have h1 : (excelAddress mr1.1).toList = (excelAddress mr2.1).toList := by
    injection hsplit with hh _
  have h2 : (excelAddress mr1.2).toList = (excelAddress mr2.2).toList := by
    injection hsplit with _ ht
    injection ht with hh _
  have e1 : excelAddress mr1.1 = excelAddress mr2.1 := string_eq_of_toList h1
  have e2 : excelAddress mr1.2 = excelAddress mr2.2 := string_eq_of_toList h2
  have p1 : mr1.1 = mr2.1 := by
    have := congrArg fromAddress e1
    rwa [fromAddress_excelAddress mr1.1 ha1 ha2,
      fromAddress_excelAddress mr2.1 hb1 hb2] at this
  have p2 : mr1.2 = mr2.2 := by
    have := congrArg fromAddress e2
    rwa [fromAddress_excelAddress mr1.2 ha4 ha3,
      fromAddress_excelAddress mr2.2 hb4 hb3] at this
  exact Prod.ext p1 p2

theorem applyCellDef_cells (ws : Worksheet) (cd : SCellDef) (p : Nat × Nat) :
    (applyCellDef ws cd).cells p =
      if p = cd.position then cellDefTransform cd (ws.cells p) else ws.cells p := rfl

theorem cellsFold_invariants :
    ∀ (cells : List SCellDef) (ws : Worksheet),
      (cells.foldl applyCellDef ws).title = ws.title ∧
      (cells.foldl applyCellDef ws).merged = ws.merged ∧
      (cells.foldl applyCellDef ws).columnWidths = ws.columnWidths ∧
      (cells.foldl applyCellDef ws).rowHeights = ws.rowHeights ∧
      (cells.foldl applyCellDef ws).freezePanes = ws.freezePanes := by
  intro cells
  induction cells with
  | nil => intro ws; exact ⟨rfl, rfl, rfl, rfl, rfl⟩
  | cons a as ih =>
    intro ws
    rw [List.foldl_cons]
    exact ih (applyCellDef ws a)

theorem cellsFold_cells_untouched :
    ∀ (cells : List SCellDef) (ws : Worksheet) (p : Nat × Nat),
      (∀ cd ∈ cells, cd.position ≠ p) →
      (cells.foldl applyCellDef ws).cells p = ws.cells p := by
  intro cells
  induction cells with
  | nil => intro ws p _; rfl
  | cons a as ih =>
    intro ws p h
    rw [List.foldl_cons, ih _ p (fun cd hcd => h cd (List.mem_cons_of_mem a hcd)),
      applyCellDef_cells,
      if_neg (fun hc => h a (List.mem_cons_self a as) (by rw [hc]))]

theorem cellsFold_cells_at :
    ∀ (cells : List SCellDef) (ws : Worksheet) (cd : SCellDef),
      cd ∈ cells → List.Pairwise (fun a b => a.position ≠ b.position) cells →
      (cells.foldl applyCellDef ws).cells cd.position =
        cellDefTransform cd (ws.cells cd.position) := by
  intro cells
  induction cells with
  | nil => intro ws cd h _; exact absurd h (List.not_mem_nil cd)
  | cons a as ih =>
    intro ws cd hmem hpw
    rw [List.foldl_cons]
    rcases List.mem_cons.mp hmem with rfl | h2
    · rw [cellsFold_cells_untouched as _ _
        (fun b hb => ((List.pairwise_cons.mp hpw).1 b hb).symm),
        applyCellDef_cells, if_pos rfl]
    · rw [ih _ cd h2 (List.pairwise_cons.mp hpw).2, applyCellDef_cells,
        if_neg (fun hc => ((List.pairwise_cons.mp hpw).1 cd h2) hc.symm)]

theorem cellsFold_dims_mono :
    ∀ (cells : List SCellDef) (ws : Worksheet),
      ws.maxRowRaw ≤ (cells.foldl applyCellDef ws).maxRowRaw ∧
      ws.maxColRaw ≤ (cells.foldl applyCellDef ws).maxColRaw := by
  intro cells
  induction cells with
  | nil => intro ws; exact ⟨Nat.le_refl _, Nat.le_refl _⟩
  | cons a as ih =>
    intro ws
    rw [List.foldl_cons]
    have h := ih (applyCellDef ws a)
    have h1 : ws.maxRowRaw ≤ (applyCellDef ws a).maxRowRaw := Nat.le_max_left _ _
    have h2 : ws.maxColRaw ≤ (applyCellDef ws a).maxColRaw := Nat.le_max_left _ _
    exact ⟨Nat.le_trans h1 h.1, Nat.le_trans h2 h.2⟩

theorem cellsFold_covers :
    ∀ (cells : List SCellDef) (ws : Worksheet) (cd : SCellDef), cd ∈ cells →
      cd.position.1 ≤ (cells.foldl applyCellDef ws).maxRowRaw ∧
      cd.position.2 ≤ (cells.foldl applyCellDef ws).maxColRaw := by
  intro cells
  induction cells with
  | nil => intro ws cd h; exact absurd h (List.not_mem_nil cd)
  | cons a as ih =>
    intro ws cd hmem
    rw [List.foldl_cons]
    rcases List.mem_cons.mp hmem with rfl | h2
    · have h := cellsFold_dims_mono as (applyCellDef ws cd)
      exact ⟨Nat.le_trans (Nat.le_max_right _ _) h.1,
        Nat.le_trans (Nat.le_max_right _ _) h.2⟩
    · exact ih _ cd h2

theorem styleTransform_value (st : SCellStyle) (cell : PyCell) :
    (styleTransform st cell).value = cell.value := by
  obtain ⟨sf, sfl, sbd, sal, snf⟩ := st
  unfold styleTransform
  rcases sf with _ | sf <;> rcases sfl with _ | sfl <;> rcases sbd with _ | sbd <;>
    rcases sal with _ | sal <;> rcases snf with _ | snf <;> rfl

theorem cellDefTransform_value (cd : SCellDef) (hf : cd.formula = none) (cell : PyCell) :
    (cellDefTransform cd cell).value =
      match cd.value with
      | some v => some v
      | none => cell.value := by
  obtain ⟨pos, ct, val, st, f, mr, cm, hy⟩ := cd
  rcases f with _ | f
  · unfold cellDefTransform
    rcases val with _ | v <;> rcases cm with _ | cm <;> rcases hy with _ | hy <;>
      rcases st with _ | st <;> dsimp only <;>
      (try split) <;> (try split) <;>
      simp only [styleTransform_value]
  · exact absurd hf (by simp)

theorem mergeCells_cells (ws : Worksheet) (mr : (Nat × Nat) × (Nat × Nat)) (p : Nat × Nat) :
    (mergeCells ws mr).cells p =
      if inMergeRange p mr && p != mr.1 then { ws.cells p with value := none }
      else ws.cells p := rfl

theorem mergeCells_merged (ws : Worksheet) (mr : (Nat × Nat) × (Nat × Nat)) :
    (mergeCells ws mr).merged = ws.merged ++ [mr] := rfl

theorem mergeStep_invariants (acc : Worksheet × List String) (cd : SCellDef) :
    (mergeStep acc cd).1.title = acc.1.title ∧
    (mergeStep acc cd).1.columnWidths = acc.1.columnWidths ∧
    (mergeStep acc cd).1.rowHeights = acc.1.rowHeights ∧
    (mergeStep acc cd).1.freezePanes = acc.1.freezePanes := by
  unfold mergeStep
  rcases h : cd.merge_range with _ | mr
  · exact ⟨rfl, rfl, rfl, rfl⟩
  · simp only [h]
    split
    · exact ⟨rfl, rfl, rfl, rfl⟩
    · exact ⟨rfl, rfl, rfl, rfl⟩

theorem mergesFold_invariants :
    ∀ (cells : List SCellDef) (acc : Worksheet × List String),
      (cells.foldl mergeStep acc).1.title = acc.1.title ∧
      (cells.foldl mergeStep acc).1.columnWidths = acc.1.columnWidths ∧
      (cells.foldl mergeStep acc).1.rowHeights = acc.1.rowHeights ∧
      (cells.foldl mergeStep acc).1.freezePanes = acc.1.freezePanes := by
  intro cells
  induction cells with
  | nil => intro acc; exact ⟨rfl, rfl, rfl, rfl⟩
  | cons a as ih =>
    intro acc
    rw [List.foldl_cons]
    have h1 := mergeStep_invariants acc a
    have h2 := ih (mergeStep acc a)
    exact ⟨h2.1.trans h1.1, h2.2.1.trans h1.2.1, h2.2.2.1.trans h1.2.2.1,
      h2.2.2.2.trans h1.2.2.2⟩

theorem mergeStep_merged_mono (acc : Worksheet × List String) (cd : SCellDef)
    (x : (Nat × Nat) × (Nat × Nat)) (h : x ∈ acc.1.merged) :
    x ∈ (mergeStep acc cd).1.merged := by
  unfold mergeStep
  rcases hm : cd.merge_range with _ | mr
  · exact h
  · simp only [hm]
    split
    · exact h
    · exact List.mem_append_left _ h

theorem mergesFold_merged_mono :
    ∀ (cells : List SCellDef) (acc : Worksheet × List String) (x : (Nat × Nat) × (Nat × Nat)),
      x ∈ acc.1.merged → x ∈ ((cells.foldl mergeStep acc).1).merged := by
  intro cells
  induction cells with
  | nil => intro acc x h; exact h
  | cons a as ih =>
    intro acc x h
    rw [List.foldl_cons]
    exact ih _ x (mergeStep_merged_mono acc a x h)

theorem mergeStep_merged_sub (acc : Worksheet × List String) (cd : SCellDef) :
    ∀ x ∈ (mergeStep acc cd).1.merged, x ∈ acc.1.merged ∨ cd.merge_range = some x := by
  intro x hx
  unfold mergeStep at hx
  rcases hm : cd.merge_range with _ | mr
  · rw [hm] at hx
    exact Or.inl hx
  · rw [hm] at hx
    simp only at hx
    by_cases hc : acc.2.contains (excelRange mr)
    · rw [if_pos hc] at hx
      exact Or.inl hx
    · rw [if_neg hc] at hx
      rcases List.mem_append.mp hx with hx | hx
      · exact Or.inl hx
      · obtain rfl := List.mem_singleton.mp hx
        exact Or.inr rfl

theorem mergesFold_merged_sub :
    ∀ (cells : List SCellDef) (acc : Worksheet × List String) (x : (Nat × Nat) × (Nat × Nat)),
      x ∈ ((cells.foldl mergeStep acc).1).merged →
      x ∈ acc.1.merged ∨ ∃ cd ∈ cells, cd.merge_range = some x := by
  intro cells
  induction cells with
  | nil => intro acc x h; exact Or.inl h
  | cons a as ih =>
    intro acc x h
    rw [List.foldl_cons] at h
    rcases ih _ x h with h2 | ⟨cd, hcd, hmr⟩
    · rcases mergeStep_merged_sub acc a x h2 with h3 | h3
      · exact Or.inl h3
      · exact Or.inr ⟨a, List.mem_cons_self a as, h3⟩
    · exact Or.inr ⟨cd, List.mem_cons_of_mem a hcd, hmr⟩

theorem mergesFold_contains :
    ∀ (cells : List SCellDef) (acc : Worksheet × List String),
      (∀ s ∈ acc.2, ∃ mr0 ∈ acc.1.merged, excelRange mr0 = s ∧
        1 ≤ mr0.1.1 ∧ 1 ≤ mr0.1.2 ∧ 1 ≤ mr0.2.1 ∧ 1 ≤ mr0.2.2) →
      (∀ cd ∈ cells, ∀ mr, cd.merge_range = some mr →
        1 ≤ mr.1.1 ∧ 1 ≤ mr.1.2 ∧ 1 ≤ mr.2.1 ∧ 1 ≤ mr.2.2) →
      ∀ cd ∈ cells, ∀ mr, cd.merge_range = some mr →
        mr ∈ ((cells.foldl mergeStep acc).1).merged := by
  intro cells
  induction cells with
  | nil => intro acc _ _ cd h; exact absurd h (List.not_mem_nil cd)
  | cons a as ih =>
    intro acc hinv hpos cd hmem mr hmr
    rw [List.foldl_cons]
    rcases List.mem_cons.mp hmem with rfl | h2
    · apply mergesFold_merged_mono as (mergeStep acc cd) mr
      unfold mergeStep
      simp only [hmr]
      by_cases hc : acc.2.contains (excelRange mr)
      · rw [if_pos hc]
        have hs : excelRange mr ∈ acc.2 := by
          simpa using hc
        obtain ⟨mr0, hmr0mem, hstr, h01, h02, h03, h04⟩ := hinv _ hs
        have hposmr := hpos cd (List.mem_cons_self _ _) mr hmr
        have heq : mr0 = mr := excelRange_inj h01 h02 h04 hposmr.1 hposmr.2.1
          hposmr.2.2.2 h03 hposmr.2.2.1 hstr
        rwa [← heq]
      · rw [if_neg hc]
        exact List.mem_append_right _ (List.mem_singleton.mpr rfl)
    · apply ih (mergeStep acc a) ?_
        (fun cd' h' => hpos cd' (List.mem_cons_of_mem a h')) cd h2 mr hmr
      intro s hs
      unfold mergeStep at hs ⊢
      rcases hma : a.merge_range with _ | mra
      · simp only [hma] at hs ⊢
        exact hinv s hs
      · simp only [hma] at hs ⊢
        by_cases hca : acc.2.contains (excelRange mra)
        · rw [if_pos hca] at hs ⊢
          exact hinv s hs
        · rw [if_neg hca] at hs ⊢
          rcases List.mem_append.mp hs with hs | hs
          · obtain ⟨mr0, hm, hrest⟩ := hinv s hs
            exact ⟨mr0, List.mem_append_left _ hm, hrest⟩
          · obtain rfl := List.mem_singleton.mp hs
            have hp := hpos a (List.mem_cons_self a as) mra hma
            exact ⟨mra, List.mem_append_right _ (List.mem_singleton.mpr rfl), rfl,
              hp.1, hp.2.1, hp.2.2.1, hp.2.2.2⟩

theorem mergeStep_cells (acc : Worksheet × List String) (cd : SCellDef) (p : Nat × Nat)
    (h : ∀ mr, cd.merge_range = some mr → ¬(inMergeRange p mr = true ∧ p ≠ mr.1)) :
    (mergeStep acc cd).1.cells p = acc.1.cells p := by
  unfold mergeStep
  rcases hm : cd.merge_range with _ | mr
  · rfl
  · simp only
    split
    · rfl
    · rw [mergeCells_cells, if_neg (fun hb => ?_)]
      rw [Bool.and_eq_true] at hb
      exact h mr hm ⟨hb.1, by simpa using hb.2⟩

theorem mergesFold_cells :
    ∀ (cells : List SCellDef) (acc : Worksheet × List String) (p : Nat × Nat),
      (∀ cd ∈ cells, ∀ mr, cd.merge_range = some mr →
        ¬(inMergeRange p mr = true ∧ p ≠ mr.1)) →
      ((cells.foldl mergeStep acc).1).cells p = acc.1.cells p := by
  intro cells
  induction cells with
  | nil => intro acc p _; rfl
  | cons a as ih =>
    intro acc p h
    rw [List.foldl_cons, ih _ p (fun cd hcd => h cd (List.mem_cons_of_mem a hcd)),
      mergeStep_cells acc a p (h a (List.mem_cons_self a as))]

theorem mergeStep_dims_mono (acc : Worksheet × List String) (cd : SCellDef) :
    acc.1.maxRowRaw ≤ (mergeStep acc cd).1.maxRowRaw ∧
    acc.1.maxColRaw ≤ (mergeStep acc cd).1.maxColRaw := by
  unfold mergeStep
  rcases hm : cd.merge_range with _ | mr
  · exact ⟨Nat.le_refl _, Nat.le_refl _⟩
  · simp only
    split
    · exact ⟨Nat.le_refl _, Nat.le_refl _⟩
    · constructor
      · show acc.1.maxRowRaw ≤ (mergeCells acc.1 mr).maxRowRaw
        simp only [mergeCells, touchCell]
        omega
      · show acc.1.maxColRaw ≤ (mergeCells acc.1 mr).maxColRaw
        simp only [mergeCells, touchCell]
        omega

theorem mergesFold_dims_mono :
    ∀ (cells : List SCellDef) (acc : Worksheet × List String),
      acc.1.maxRowRaw ≤ ((cells.foldl mergeStep acc).1).maxRowRaw ∧
      acc.1.maxColRaw ≤ ((cells.foldl mergeStep acc).1).maxColRaw := by
  intro cells
  induction cells with
  | nil => intro acc; exact ⟨Nat.le_refl _, Nat.le_refl _⟩
  | cons a as ih =>
    intro acc
    rw [List.foldl_cons]
    have h1 := mergeStep_dims_mono acc a
    have h2 := ih (mergeStep acc a)
    exact ⟨Nat.le_trans h1.1 h2.1, Nat.le_trans h1.2 h2.2⟩

theorem widthsFoldWs_invariants :
    ∀ (l : List (String × Nat)) (ws : Worksheet),
      ((l.foldl (fun ws kv => setColumnWidth ws kv.1 kv.2) ws).cells = ws.cells ∧
       (l.foldl (fun ws kv => setColumnWidth ws kv.1 kv.2) ws).title = ws.title ∧
       (l.foldl (fun ws kv => setColumnWidth ws kv.1 kv.2) ws).merged = ws.merged ∧
       (l.foldl (fun ws kv => setColumnWidth ws kv.1 kv.2) ws).rowHeights = ws.rowHeights ∧
       (l.foldl (fun ws kv => setColumnWidth ws kv.1 kv.2) ws).freezePanes = ws.freezePanes ∧
       (l.foldl (fun ws kv => setColumnWidth ws kv.1 kv.2) ws).maxRowRaw = ws.maxRowRaw ∧
       (l.foldl (fun ws kv => setColumnWidth ws kv.1 kv.2) ws).maxColRaw = ws.maxColRaw) := by
  intro l
  induction l with
  | nil => intro ws; exact ⟨rfl, rfl, rfl, rfl, rfl, rfl, rfl⟩
  | cons a as ih =>
    intro ws
    rw [List.foldl_cons]
    exact ih (setColumnWidth ws a.1 a.2)

theorem widthsFoldWs_columnWidths :
    ∀ (l : List (String × Nat)) (ws : Worksheet),
      (l.foldl (fun ws kv => setColumnWidth ws kv.1 kv.2) ws).columnWidths =
        l.foldl (fun acc kv => assocSet acc kv.1 kv.2) ws.columnWidths := by
  intro l
  induction l with
  | nil => intro ws; rfl
  | cons a as ih =>
    intro ws
    rw [List.foldl_cons, List.foldl_cons, ih]
    rfl

theorem heightsFoldWs_invariants :
    ∀ (l : List (Nat × Nat)) (ws : Worksheet),
      ((l.foldl (fun ws kv => setRowHeight ws kv.1 kv.2) ws).cells = ws.cells ∧
       (l.foldl (fun ws kv => setRowHeight ws kv.1 kv.2) ws).title = ws.title ∧
       (l.foldl (fun ws kv => setRowHeight ws kv.1 kv.2) ws).merged = ws.merged ∧
       (l.foldl (fun ws kv => setRowHeight ws kv.1 kv.2) ws).columnWidths = ws.columnWidths ∧
       (l.foldl (fun ws kv => setRowHeight ws kv.1 kv.2) ws).freezePanes = ws.freezePanes ∧
       (l.foldl (fun ws kv => setRowHeight ws kv.1 kv.2) ws).maxRowRaw = ws.maxRowRaw ∧
       (l.foldl (fun ws kv => setRowHeight ws kv.1 kv.2) ws).maxColRaw = ws.maxColRaw) := by
  intro l
  induction l with
  | nil => intro ws; exact ⟨rfl, rfl, rfl, rfl, rfl, rfl, rfl⟩
  | cons a as ih =>
    intro ws
    rw [List.foldl_cons]
    exact ih (setRowHeight ws a.1 a.2)

theorem heightsFoldWs_rowHeights :
    ∀ (l : List (Nat × Nat)) (ws : Worksheet),
      (l.foldl (fun ws kv => setRowHeight ws kv.1 kv.2) ws).rowHeights =
        l.foldl (fun acc kv => assocSet acc kv.1 kv.2) ws.rowHeights := by
  intro l
  induction l with
  | nil => intro ws; rfl
  | cons a as ih =>
    intro ws
    rw [List.foldl_cons, List.foldl_cons, ih]
    rfl

theorem assocSet_of_no_key {α : Type} [DecidableEq α] (l : List (α × Nat)) (k : α) (v : Nat)
    (h : ∀ kv ∈ l, kv.1 ≠ k) : assocSet l k v = l ++ [(k, v)] := by
  unfold assocSet
  rw [if_neg (fun hany => ?_)]
  obtain ⟨x, hx, hpx⟩ := List.any_eq_true.mp hany
  exact h x hx (by simpa using hpx)

theorem assocSetFold_of_nodupkeys {α : Type} [DecidableEq α] :
    ∀ (l acc : List (α × Nat)),
      List.Pairwise (fun a b => a.1 ≠ b.1) l → (∀ kv ∈ l, ∀ kv2 ∈ acc, kv.1 ≠ kv2.1) →
      l.foldl (fun acc kv => assocSet acc kv.1 kv.2) acc = acc ++ l := by
  intro l
  induction l with
  | nil => intro acc _ _; rw [List.foldl_nil, List.append_nil]
  | cons a as ih =>
    intro acc hpw hdisj
    rw [List.foldl_cons,
      assocSet_of_no_key acc a.1 a.2 (fun kv hkv => (hdisj a (List.mem_cons_self a as) kv hkv).symm)]
    rw [ih (acc ++ [(a.1, a.2)]) (List.pairwise_cons.mp hpw).2 ?_]
    · rw [List.append_assoc]
      rfl
    · intro kv hkv kv2 hkv2
      rcases List.mem_append.mp hkv2 with h2 | h2
      · exact hdisj kv (List.mem_cons_of_mem a hkv) kv2 h2
      · obtain rfl := List.mem_singleton.mp h2
        exact fun hc => ((List.pairwise_cons.mp hpw).1 kv hkv).symm hc

theorem applyStructWidths_invariants (ws : Worksheet) (o : Option (List (String × Nat))) :
    (applyStructWidths ws o).cells = ws.cells ∧
    (applyStructWidths ws o).title = ws.title ∧
    (applyStructWidths ws o).merged = ws.merged ∧
    (applyStructWidths ws o).rowHeights = ws.rowHeights ∧
    (applyStructWidths ws o).freezePanes = ws.freezePanes ∧
    (applyStructWidths ws o).maxRowRaw = ws.maxRowRaw ∧
    (applyStructWidths ws o).maxColRaw = ws.maxColRaw := by
  unfold applyStructWidths
  rcases o with _ | l
  · exact ⟨rfl, rfl, rfl, rfl, rfl, rfl, rfl⟩
  · exact widthsFoldWs_invariants l ws

theorem applyStructWidths_columnWidths (ws : Worksheet) (o : Option (List (String × Nat))) :
    (applyStructWidths ws o).columnWidths =
      (o.getD []).foldl (fun acc kv => assocSet acc kv.1 kv.2) ws.columnWidths := by
  unfold applyStructWidths
  rcases o with _ | l
  · rfl
  · exact widthsFoldWs_columnWidths l ws

theorem applyStructHeights_invariants (ws : Worksheet) (o : Option (List (Nat × Nat))) :
    (applyStructHeights ws o).cells = ws.cells ∧
    (applyStructHeights ws o).title = ws.title ∧
    (applyStructHeights ws o).merged = ws.merged ∧
    (applyStructHeights ws o).columnWidths = ws.columnWidths ∧
    (applyStructHeights ws o).freezePanes = ws.freezePanes ∧
    (applyStructHeights ws o).maxRowRaw = ws.maxRowRaw ∧
    (applyStructHeights ws o).maxColRaw = ws.maxColRaw := by
  unfold applyStructHeights
  rcases o with _ | l
  · exact ⟨rfl, rfl, rfl, rfl, rfl, rfl, rfl⟩
  · exact heightsFoldWs_invariants l ws

theorem applyStructHeights_rowHeights (ws : Worksheet) (o : Option (List (Nat × Nat))) :
    (applyStructHeights ws o).rowHeights =
      (o.getD []).foldl (fun acc kv => assocSet acc kv.1 kv.2) ws.rowHeights := by
  unfold applyStructHeights
  rcases o with _ | l
  · rfl
  · exact heightsFoldWs_rowHeights l ws

theorem applyStructFreeze_invariants (ws : Worksheet) (o : Option String) :
    (applyStructFreeze ws o).cells = ws.cells ∧
    (applyStructFreeze ws o).title = ws.title ∧
    (applyStructFreeze ws o).merged = ws.merged ∧
    (applyStructFreeze ws o).columnWidths = ws.columnWidths ∧
    (applyStructFreeze ws o).rowHeights = ws.rowHeights ∧
    (applyStructFreeze ws o).maxRowRaw = ws.maxRowRaw ∧
    (applyStructFreeze ws o).maxColRaw = ws.maxColRaw := by
  unfold applyStructFreeze
  rcases o with _ | fp
  · exact ⟨rfl, rfl, rfl, rfl, rfl, rfl, rfl⟩
  · dsimp only
    by_cases hfp : fp = ""
    · rw [if_pos hfp]
      exact ⟨rfl, rfl, rfl, rfl, rfl, rfl, rfl⟩
    · rw [if_neg hfp]
      exact ⟨rfl, rfl, rfl, rfl, rfl, rfl, rfl⟩

theorem applyStructFreeze_freezePanes (ws : Worksheet) (o : Option String)
    (h : o ≠ some "") :
    (applyStructFreeze ws o).freezePanes =
      match o with
      | some fp => some fp
      | none => ws.freezePanes := by
  unfold applyStructFreeze
  rcases o with _ | fp
  · rfl
  · dsimp only
    rw [if_neg (fun hc => h (by rw [hc]))]

theorem parseWorksheet_emits (ws : Worksheet) (p : Nat × Nat) (hr1 : 1 ≤ p.1)
    (hr2 : p.1 ≤ wsMaxRow ws) (hc1 : 1 ≤ p.2) (hc2 : p.2 ≤ wsMaxCol ws)
    (hval : (ws.cells p).value.isSome = true) :
    parseCellAt ws p.1 p.2 ∈ (parseWorksheet ws).cells := by
  unfold parseWorksheet
  simp only [List.mem_flatMap, List.mem_filterMap]
  refine ⟨p.1, mem_rangeList.mpr ⟨hr1, hr2⟩, p.2, mem_rangeList.mpr ⟨hc1, hc2⟩, ?_⟩
  rw [if_pos]
  rw [Bool.or_eq_true]
  left
  obtain ⟨pr, pc⟩ := p
  exact hval

theorem find?_eq_some_of_unique {α : Type} (p : α → Bool) :
    ∀ (l : List α) (x : α), x ∈ l → p x = true → (∀ y ∈ l, p y = true → y = x) →
      l.find? p = some x := by
  intro l
  induction l with
  | nil => intro x hx; exact absurd hx (List.not_mem_nil x)
  | cons a as ih =>
    intro x hx hpx huniq
    by_cases hpa : p a = true
    · rw [List.find?_cons_of_pos _ hpa]
      exact congrArg some (huniq a (List.mem_cons_self a as) hpa)
    · rw [List.find?_cons_of_neg _ (by simpa using hpa)]
      rcases List.mem_cons.mp hx with rfl | h2
      · exact absurd hpx hpa
      · exact ih x h2 hpx (fun y hy hpy => huniq y (List.mem_cons_of_mem a hy) hpy)

theorem rectDisjoint_spec {mr mr2 : (Nat × Nat) × (Nat × Nat)}
    (h : rectDisjoint mr mr2) (p : Nat × Nat) :
    ¬(inMergeRange p mr = true ∧ inMergeRange p mr2 = true) := by
  unfold rectDisjoint at h
  unfold inMergeRange
  intro hc
  obtain ⟨h1, h2⟩ := hc
  simp only [Bool.and_eq_true, decide_eq_true_eq] at h1 h2
  omega

theorem inMergeRange_anchor {mr : (Nat × Nat) × (Nat × Nat)}
    (h1 : mr.1.1 ≤ mr.2.1) (h2 : mr.1.2 ≤ mr.2.2) :
    inMergeRange mr.1 mr = true := by
  unfold inMergeRange
  simp only [Bool.and_eq_true, decide_eq_true_eq]
  omega

theorem applyStructFreeze_none_base (ws : Worksheet) (o : Option String)
    (hb : ws.freezePanes = none) (h : o ≠ some "") :
    (applyStructFreeze ws o).freezePanes = o := by
  rcases o with _ | fp
  · exact hb
  · unfold applyStructFreeze
    dsimp only
    rw [if_neg (fun hc => h (by rw [hc]))]

theorem sheet_roundtrip (sh : SSheet) (hOK : SheetOK sh) :
    (parseWorksheet (buildStructSheet sh)).name = sh.name ∧
    (∀ cd ∈ sh.cells, ∀ v, cd.value = some v →
      ∃ cd2 ∈ (parseWorksheet (buildStructSheet sh)).cells,
        cd2.position = cd.position ∧ cd2.value = some v) ∧
    (∀ lw, sh.column_widths = some lw → ∀ kv ∈ lw,
      ∃ lw2, (parseWorksheet (buildStructSheet sh)).column_widths = some lw2 ∧ kv ∈ lw2) ∧
    (∀ lh, sh.row_heights = some lh → ∀ kv ∈ lh,
      ∃ lh2, (parseWorksheet (buildStructSheet sh)).row_heights = some lh2 ∧ kv ∈ lh2) ∧
    (parseWorksheet (buildStructSheet sh)).freeze_panes = sh.freeze_panes := by
  obtain ⟨hpw, hposf, hmerge, hdisj, hanchor, hw, hh, hfz⟩ := hOK
  have hMinv := mergesFold_invariants sh.cells
    (sh.cells.foldl applyCellDef (newWs sh.name), ([] : List String))
  have hCinv := cellsFold_invariants sh.cells (newWs sh.name)
  have hIW := applyStructWidths_invariants
    (applyMerges (sh.cells.foldl applyCellDef (newWs sh.name)) sh.cells) sh.column_widths
  have hIH := applyStructHeights_invariants
    (applyStructWidths (applyMerges (sh.cells.foldl applyCellDef (newWs sh.name)) sh.cells)
      sh.column_widths) sh.row_heights
  have hIF := applyStructFreeze_invariants
    (applyStructHeights
      (applyStructWidths (applyMerges (sh.cells.foldl applyCellDef (newWs sh.name)) sh.cells)
        sh.column_widths) sh.row_heights) sh.freeze_panes
  have hWcells : (buildStructSheet sh).cells =
      (applyMerges (sh.cells.foldl applyCellDef (newWs sh.name)) sh.cells).cells := by
    show (applyStructFreeze _ _).cells = _
    rw [hIF.1, hIH.1, hIW.1]
  have hWtitle : (buildStructSheet sh).title = sh.name := by
    show (applyStructFreeze _ _).title = sh.name
    rw [hIF.2.1, hIH.2.1, hIW.2.1]
    show ((sh.cells.foldl mergeStep
      (sh.cells.foldl applyCellDef (newWs sh.name), ([] : List String))).1).title = sh.name
    rw [hMinv.1]
    show (sh.cells.foldl applyCellDef (newWs sh.name)).title = sh.name
    rw [hCinv.1]
    rfl
  have hWrow : (buildStructSheet sh).maxRowRaw =
      (applyMerges (sh.cells.foldl applyCellDef (newWs sh.name)) sh.cells).maxRowRaw := by
    show (applyStructFreeze _ _).maxRowRaw = _
    rw [hIF.2.2.2.2.2.1, hIH.2.2.2.2.2.1, hIW.2.2.2.2.2.1]
  have hWcol : (buildStructSheet sh).maxColRaw =
      (applyMerges (sh.cells.foldl applyCellDef (newWs sh.name)) sh.cells).maxColRaw := by
    show (applyStructFreeze _ _).maxColRaw = _
    rw [hIF.2.2.2.2.2.2, hIH.2.2.2.2.2.2, hIW.2.2.2.2.2.2]
  have hcellval : ∀ cd ∈ sh.cells, ∀ v, cd.value = some v →
      ((buildStructSheet sh).cells cd.position).value = some v := by
    intro cd hcd v hv
    rw [hWcells]
    have hpres : (applyMerges (sh.cells.foldl applyCellDef (newWs sh.name)) sh.cells).cells
        cd.position = (sh.cells.foldl applyCellDef (newWs sh.name)).cells cd.position := by
      apply mergesFold_cells
      intro cd2 hcd2 mr2 hmr2 hc
      have hvalsome : cd.value.isSome = true := by rw [hv]; rfl
      have hA := hanchor cd hcd hvalsome cd2 hcd2
      simp only [hmr2] at hA
      exact hc.2 (hA hc.1)
    rw [hpres, cellsFold_cells_at sh.cells (newWs sh.name) cd hcd hpw,
      cellDefTransform_value cd (hposf cd hcd).2.2]
    simp [hv]
  have hdims : ∀ cd ∈ sh.cells,
      1 ≤ cd.position.1 ∧ cd.position.1 ≤ wsMaxRow (buildStructSheet sh) ∧
      1 ≤ cd.position.2 ∧ cd.position.2 ≤ wsMaxCol (buildStructSheet sh) := by
    intro cd hcd
    have h0 := cellsFold_covers sh.cells (newWs sh.name) cd hcd
    have h1 := mergesFold_dims_mono sh.cells
      (sh.cells.foldl applyCellDef (newWs sh.name), ([] : List String))
    have hp := hposf cd hcd
    unfold wsMaxRow wsMaxCol
    rw [hWrow, hWcol]
    have hr := Nat.le_trans h0.1 h1.1
    have hc := Nat.le_trans h0.2 h1.2
    exact ⟨hp.1, Nat.le_trans hr (Nat.le_max_right 1 _), hp.2.1,
      Nat.le_trans hc (Nat.le_max_right 1 _)⟩
  refine ⟨hWtitle, ?_, ?_, ?_, ?_⟩
  · intro cd hcd v hv
    have hd := hdims cd hcd
    refine ⟨parseCellAt (buildStructSheet sh) cd.position.1 cd.position.2,
      parseWorksheet_emits _ cd.position hd.1 hd.2.1 hd.2.2.1 hd.2.2.2
        (by rw [hcellval cd hcd v hv]; rfl), rfl, ?_⟩
    show ((buildStructSheet sh).cells (cd.position.1, cd.position.2)).value = some v
    exact hcellval cd hcd v hv
  · intro lw hlw kv hkv
    have hwp := hw
    simp only [hlw] at hwp
    have hWcw : (buildStructSheet sh).columnWidths = lw := by
      show (applyStructFreeze _ _).columnWidths = lw
      rw [hIF.2.2.2.1, hIH.2.2.2.1, applyStructWidths_columnWidths, hlw]
      show lw.foldl _ ((sh.cells.foldl mergeStep
        (sh.cells.foldl applyCellDef (newWs sh.name), ([] : List String))).1).columnWidths = lw
      rw [hMinv.2.1]
      show lw.foldl _ (sh.cells.foldl applyCellDef (newWs sh.name)).columnWidths = lw
      rw [hCinv.2.2.1]
      show lw.foldl _ ([] : List (String × Nat)) = lw
      rw [assocSetFold_of_nodupkeys lw [] hwp.1 (fun kv2 _ kv3 h3 => absurd h3 (List.not_mem_nil kv3))]
      rfl
    refine ⟨lw, ?_, hkv⟩
    show (if ((buildStructSheet sh).columnWidths.filter (fun p => p.2 != 0)).isEmpty = true
      then none else some ((buildStructSheet sh).columnWidths.filter (fun p => p.2 != 0))) = some lw
    rw [hWcw, List.filter_eq_self.mpr (fun a ha => by simpa using hwp.2 a ha)]
    rw [if_neg (fun hc => by
      rw [List.isEmpty_iff] at hc
      rw [hc] at hkv
      exact List.not_mem_nil kv hkv)]
  · intro lh hlh kv hkv
    have hhp := hh
    simp only [hlh] at hhp
    have hWrh : (buildStructSheet sh).rowHeights = lh := by
      show (applyStructFreeze _ _).rowHeights = lh
      rw [hIF.2.2.2.2.1, applyStructHeights_rowHeights, hlh]
      show lh.foldl _ (applyStructWidths _ _).rowHeights = lh
      rw [hIW.2.2.2.1]
      show lh.foldl _ ((sh.cells.foldl mergeStep
        (sh.cells.foldl applyCellDef (newWs sh.name), ([] : List String))).1).rowHeights = lh
      rw [hMinv.2.2.1]
      show lh.foldl _ (sh.cells.foldl applyCellDef (newWs sh.name)).rowHeights = lh
      rw [hCinv.2.2.2.1]
      show lh.foldl _ ([] : List (Nat × Nat)) = lh
      rw [assocSetFold_of_nodupkeys lh [] hhp.1 (fun kv2 _ kv3 h3 => absurd h3 (List.not_mem_nil kv3))]
      rfl
    refine ⟨lh, ?_, hkv⟩
    show (if ((buildStructSheet sh).rowHeights.filter (fun p => p.2 != 0)).isEmpty = true
      then none else some ((buildStructSheet sh).rowHeights.filter (fun p => p.2 != 0))) = some lh
    rw [hWrh, List.filter_eq_self.mpr (fun a ha => by simpa using hhp.2 a ha)]
    rw [if_neg (fun hc => by
      rw [List.isEmpty_iff] at hc
      rw [hc] at hkv
      exact List.not_mem_nil kv hkv)]
  · have hbase : (applyStructHeights
        (applyStructWidths (applyMerges (sh.cells.foldl applyCellDef (newWs sh.name)) sh.cells)
          sh.column_widths) sh.row_heights).freezePanes = none := by
      rw [hIH.2.2.2.2.1, hIW.2.2.2.2.1]
      show ((sh.cells.foldl mergeStep
        (sh.cells.foldl applyCellDef (newWs sh.name), ([] : List String))).1).freezePanes = none
      rw [hMinv.2.2.2]
      show (sh.cells.foldl applyCellDef (newWs sh.name)).freezePanes = none
      rw [hCinv.2.2.2.2]
      rfl
    have hWfz : (buildStructSheet sh).freezePanes = sh.freeze_panes := by
      show (applyStructFreeze _ sh.freeze_panes).freezePanes = sh.freeze_panes
      exact applyStructFreeze_none_base _ _ hbase hfz.2
    show (if (buildStructSheet sh).freezePanes = some "A1" then none
      else (buildStructSheet sh).freezePanes) = sh.freeze_panes
    rw [hWfz, if_neg hfz.1]

theorem buildStructSheet_title (sh : SSheet) : (buildStructSheet sh).title = sh.name := by
  have hMinv := mergesFold_invariants sh.cells
    (sh.cells.foldl applyCellDef (newWs sh.name), ([] : List String))
  have hCinv := cellsFold_invariants sh.cells (newWs sh.name)
  have hIW := applyStructWidths_invariants
    (applyMerges (sh.cells.foldl applyCellDef (newWs sh.name)) sh.cells) sh.column_widths
  have hIH := applyStructHeights_invariants
    (applyStructWidths (applyMerges (sh.cells.foldl applyCellDef (newWs sh.name)) sh.cells)
      sh.column_widths) sh.row_heights
  have hIF := applyStructFreeze_invariants
    (applyStructHeights
      (applyStructWidths (applyMerges (sh.cells.foldl applyCellDef (newWs sh.name)) sh.cells)
        sh.column_widths) sh.row_heights) sh.freeze_panes
  show (applyStructFreeze _ _).title = sh.name
  rw [hIF.2.1, hIH.2.1, hIW.2.1]
  show ((sh.cells.foldl mergeStep
    (sh.cells.foldl applyCellDef (newWs sh.name), ([] : List String))).1).title = sh.name
  rw [hMinv.1]
  show (sh.cells.foldl applyCellDef (newWs sh.name)).title = sh.name
  rw [hCinv.1]
  rfl

theorem parseWorkbook_sheets (props : WbProps) :
    ∀ (wsl : List Worksheet), (wsl.map Worksheet.title).Nodup →
      (parseWorkbook { sheets := wsl, props := props }).sheets = wsl.map parseWorksheet := by
  intro wsl
  induction wsl with
  | nil => intro _; rfl
  | cons w rest ih =>
    intro hnd
    show ((w :: rest).map Worksheet.title).map
      (fun nm => parseWorksheet (((w :: rest).find? (fun ws => ws.title = nm)).getD (newWs nm)))
      = (w :: rest).map parseWorksheet
    rw [List.map_cons, List.map_cons, List.map_cons]
    have hnd2 := List.nodup_cons.mp hnd
    congr 1
    · rw [List.find?_cons_of_pos _ (by simp)]
      rfl
    · have hcongr : ∀ nm ∈ rest.map Worksheet.title,
          parseWorksheet (((w :: rest).find? (fun ws => ws.title = nm)).getD (newWs nm))
          = parseWorksheet ((rest.find? (fun ws => ws.title = nm)).getD (newWs nm)) := by
        intro nm hnm
        rw [List.find?_cons_of_neg _ (by
          simp only [decide_eq_true_eq]
          intro hc
          exact hnd2.1 (by rw [hc]; exact hnm))]
      rw [List.map_congr_left hcongr]
      exact ih hnd2.2

theorem mergesFold_id (cells : List SCellDef) :
    ∀ (acc : Worksheet × List String), (∀ cd ∈ cells, cd.merge_range = none) →
      cells.foldl mergeStep acc = acc := by
  induction cells with
  | nil => intro acc _; rfl
  | cons a as ih =>
    intro acc h
    rw [List.foldl_cons]
    have ha : mergeStep acc a = acc := by
      unfold mergeStep
      rw [h a (List.mem_cons_self a as)]
    rw [ha]
    exact ih acc (fun cd hcd => h cd (List.mem_cons_of_mem a hcd))

theorem buildStructSheet_merged_nil (sh : SSheet)
    (h : ∀ cd ∈ sh.cells, cd.merge_range = none) :
    (buildStructSheet sh).merged = [] := by
  have hCinv := cellsFold_invariants sh.cells (newWs sh.name)
  have hIW := applyStructWidths_invariants
    (applyMerges (sh.cells.foldl applyCellDef (newWs sh.name)) sh.cells) sh.column_widths
  have hIH := applyStructHeights_invariants
    (applyStructWidths (applyMerges (sh.cells.foldl applyCellDef (newWs sh.name)) sh.cells)
      sh.column_widths) sh.row_heights
  have hIF := applyStructFreeze_invariants
    (applyStructHeights
      (applyStructWidths (applyMerges (sh.cells.foldl applyCellDef (newWs sh.name)) sh.cells)
        sh.column_widths) sh.row_heights) sh.freeze_panes
  show (applyStructFreeze _ _).merged = []
  rw [hIF.2.2.1, hIH.2.2.1, hIW.2.2.1]
  show ((sh.cells.foldl mergeStep
    (sh.cells.foldl applyCellDef (newWs sh.name), ([] : List String))).1).merged = []
  rw [mergesFold_id sh.cells _ h]
  show (sh.cells.foldl applyCellDef (newWs sh.name)).merged = []
  rw [hCinv.2.1]
  rfl

theorem parseHitsMerge_of_no_merged (ws : Worksheet) (h : ws.merged = []) :
    parseHitsMerge ws = false := by
  unfold parseHitsMerge
  rw [h]
  simp

theorem parseWorksheetE_ok (ws : Worksheet) (h : parseHitsMerge ws = false) :
    parseWorksheetE ws = .ok (parseWorksheet ws) := by
  unfold parseWorksheetE
  rw [h]
  rfl

theorem parseSheetsE_ok (wb : PyWorkbook)
    (hws : ∀ ws ∈ wb.sheets, ws.merged = []) :
    ∀ (names : List String),
      parseSheetsE wb names = .ok (names.map (fun nm =>
        parseWorksheet ((wb.sheets.find? (fun ws => ws.title = nm)).getD (newWs nm)))) := by
  intro names
  induction names with
  | nil => rfl
  | cons nm rest ih =>
    have hres : ((wb.sheets.find? (fun ws => ws.title = nm)).getD (newWs nm)).merged = [] := by
      rcases hfind : wb.sheets.find? (fun ws => ws.title = nm) with _ | w
      · rw [hfind]
        rfl
      · rw [hfind]
        exact hws w (List.mem_of_find?_eq_some hfind)
    unfold parseSheetsE
    rw [parseWorksheetE_ok _ (parseHitsMerge_of_no_merged _ hres), ih]
    rfl

theorem parseWorkbookE_ok (wb : PyWorkbook) (hws : ∀ ws ∈ wb.sheets, ws.merged = []) :
    parseWorkbookE wb = .ok (parseWorkbook wb) := by
  unfold parseWorkbookE
  rw [parseSheetsE_ok wb hws]
  rfl

/-- C2: the claimed render-then-reverse-parse reproduction cannot run at
all on a structure carrying a merge range.  The merge branch of
parse_from_file (structure_parser.py 333-340) reads merged_range.min_cell,
an attribute openpyxl range objects do not define, so reverse-parsing the
rendered documented two-sheet scenario (whose merge is anchored at its
valued cell) raises AttributeError instead of returning a structure; a
successful parse moreover erases a freeze pane at A1.  On structures
without merge ranges whose sheets are otherwise well formed (SheetOK:
distinct positive cell positions, no formula fields, truthy widths and
heights with distinct keys, freeze pane neither "A1" nor empty) and whose
names are distinct, the reproduction holds: the parse succeeds, yields one
parsed sheet per original sheet in order, and for each sheet reproduces its
name, every explicitly-set cell value at its exact position, every
column-width and row-height entry, and the freeze-pane address. -/
theorem C2_roundtrip_outcome (s : SWorkbook)
    (hnames : (s.sheets.map SSheet.name).Nodup)
    (hOK : ∀ sh ∈ s.sheets, SheetOK sh)
    (hnm : ∀ sh ∈ s.sheets, ∀ cd ∈ sh.cells, cd.merge_range = none) :
    roundTripE roundTripScenario = .error mergeAttributeError ∧
    freezeA1Structure.sheets.map SSheet.freeze_panes = [some "A1"] ∧
    (roundTripE freezeA1Structure).map (fun t => t.sheets.map SSheet.freeze_panes)
      = .ok [none] ∧
    roundTripE s = .ok (parseWorkbook (createWorkbookFromStructure s)) ∧
    (parseWorkbook (createWorkbookFromStructure s)).sheets
      = s.sheets.map (fun sh => parseWorksheet (buildStructSheet sh)) ∧
    ∀ sh ∈ s.sheets,
      (parseWorksheet (buildStructSheet sh)).name = sh.name ∧
      (∀ cd ∈ sh.cells, ∀ v, cd.value = some v →
        ∃ cd2 ∈ (parseWorksheet (buildStructSheet sh)).cells,
          cd2.position = cd.position ∧ cd2.value = some v) ∧
      (∀ lw, sh.column_widths = some lw → ∀ kv ∈ lw,
        ∃ lw2, (parseWorksheet (buildStructSheet sh)).column_widths = some lw2 ∧ kv ∈ lw2) ∧
      (∀ lh, sh.row_heights = some lh → ∀ kv ∈ lh,
        ∃ lh2, (parseWorksheet (buildStructSheet sh)).row_heights = some lh2 ∧ kv ∈ lh2) ∧
      (parseWorksheet (buildStructSheet sh)).freeze_panes = sh.freeze_panes := by
  refine ⟨rfl, rfl, rfl, ?_, ?_, ?_⟩
  · show parseWorkbookE (createWorkbookFromStructure s) = _
    apply parseWorkbookE_ok
    intro ws hwsmem
    have hmem2 : ws ∈ s.sheets.map buildStructSheet := hwsmem
    rcases List.mem_map.mp hmem2 with ⟨sh, hsh, rfl⟩
    exact buildStructSheet_merged_nil sh (hnm sh hsh)
  · show (parseWorkbook (createWorkbookFromStructure s)).sheets = _
    have hc : createWorkbookFromStructure s =
        { sheets := s.sheets.map buildStructSheet,
          props := match s.properties with
            | some p => { title := p.title, creator := p.creator, description := p.description }
            | none => {} } := rfl
    rw [hc]
    have htitles : ((s.sheets.map buildStructSheet).map Worksheet.title).Nodup := by
      rw [List.map_map]
      have he : (Worksheet.title ∘ buildStructSheet) = SSheet.name :=
        funext (fun sh => buildStructSheet_title sh)
      rw [he]
      exact hnames
    rw [parseWorkbook_sheets _ _ htitles, List.map_map]
    rfl
  · intro sh hsh
    exact sheet_roundtrip sh (hOK sh hsh)

/-- Witness for C2_roundtrip_outcome at the merge-free documented
scenario. -/
theorem C2_roundtrip_outcome_witness :
    roundTripE roundTripScenario = .error mergeAttributeError ∧
    freezeA1Structure.sheets.map SSheet.freeze_panes = [some "A1"] ∧
    (roundTripE freezeA1Structure).map (fun t => t.sheets.map SSheet.freeze_panes)
      = .ok [none] ∧
    roundTripE mergeFreeScenario
      = .ok (parseWorkbook (createWorkbookFromStructure mergeFreeScenario)) ∧
    (parseWorkbook (createWorkbookFromStructure mergeFreeScenario)).sheets
      = mergeFreeScenario.sheets.map (fun sh => parseWorksheet (buildStructSheet sh)) ∧
    ∀ sh ∈ mergeFreeScenario.sheets,
      (parseWorksheet (buildStructSheet sh)).name = sh.name ∧
      (∀ cd ∈ sh.cells, ∀ v, cd.value = some v →
        ∃ cd2 ∈ (parseWorksheet (buildStructSheet sh)).cells,
          cd2.position = cd.position ∧ cd2.value = some v) ∧
      (∀ lw, sh.column_widths = some lw → ∀ kv ∈ lw,
        ∃ lw2, (parseWorksheet (buildStructSheet sh)).column_widths = some lw2 ∧ kv ∈ lw2) ∧
      (∀ lh, sh.row_heights = some lh → ∀ kv ∈ lh,
        ∃ lh2, (parseWorksheet (buildStructSheet sh)).row_heights = some lh2 ∧ kv ∈ lh2) ∧
      (parseWorksheet (buildStructSheet sh)).freeze_panes = sh.freeze_panes :=
  C2_roundtrip_outcome mergeFreeScenario (by decide)
    (by
      intro sh hsh
      fin_cases hsh <;>
        refine ⟨by decide, by decide, ?_, ?_, ?_, by constructor <;> decide,
          by constructor <;> decide, by decide, by decide⟩ <;>
        first
        | (intro cd hcd
           fin_cases hcd <;> (dsimp only) <;> (try trivial) <;> decide)
        | (intro cd hcd cd2 hcd2
           fin_cases hcd <;> fin_cases hcd2 <;> (dsimp only) <;> (try trivial) <;>
             first
             | exact Or.inl rfl
             | (right; unfold rectDisjoint; decide))
        | (intro cd hcd
           fin_cases hcd <;>
             (intro hv cd2 hcd2
              fin_cases hcd2 <;> (dsimp only) <;> (try trivial) <;> decide)))
    (by decide)
